import Mathlib

attribute [local semireducible] Rat.add Rat.mul Rat.sub Rat.inv

/-!
Shallow embedding of `src/src/emc/motion/command.c` (the EMC motion-controller
command dispatcher `emcmotCommandHandler`) together with the helper predicates
`checkLimits`, `checkJog`, `inRange` and `clearHomes` defined in that file.

Machine doubles are modelled as rationals; the opaque external contracts
(trajectory planner `tp*` functions, `kinematicsInverse`, `pmCartMag`,
`emcmot_config_change`, `etime`) are modelled from the spec where their code
is not part of the repository snapshot, as noted on each definition.
-/

namespace EmcMot

/-- EMCMOT_MAX_AXIS. Modelled from the spec: the compile-time maximum axis
count, 8 in every concrete scenario of the spec (motion.h is not in the
snapshot). -/
def maxAxis : Nat := 8

/-- PmCartesian: a 3D translation vector. -/
structure PmCartesian where
  x : ℚ
  y : ℚ
  z : ℚ
deriving DecidableEq

/-- EmcPose: translation plus a, b, c orientation scalars; also used as a
velocity 6-vector. -/
structure EmcPose where
  tran : PmCartesian
  a : ℚ
  b : ℚ
  c : ℚ
deriving DecidableEq

/-- Per-axis flag word: the booleans accessed through the
GET_AXIS_*_FLAG / SET_AXIS_*_FLAG macros. -/
structure AxisFlags where
  activeFlag : Bool
  homedFlag : Bool
  homingFlag : Bool
  errorFlag : Bool
  pslFlag : Bool
  nslFlag : Bool
  phlFlag : Bool
  nhlFlag : Bool
deriving DecidableEq

/-- Motion flag word: the booleans accessed through GET_MOTION_*_FLAG /
SET_MOTION_*_FLAG. -/
structure MotionFlags where
  enableFlag : Bool
  coordFlag : Bool
  teleopFlag : Bool
  inposFlag : Bool
  errorFlag : Bool
deriving DecidableEq

/-- One entry of a trajectory-planner queue. -/
inductive TpSegment where
  | line (finish : EmcPose)
  | circle (finish : EmcPose) (center : PmCartesian) (normal : PmCartesian) (turn : ℤ)
deriving DecidableEq

/-- Modelled from the spec: a trajectory-planner queue handle (TP_STRUCT),
an opaque queue with set-id, set-vmax, set-vlimit, set-amax, set-vscale,
set-term-cond, add-line, add-circle, pause, resume, abort.  The opaque
rejection condition of add-line / add-circle is modelled by the `full`
flag. -/
structure TP_STRUCT where
  segments : List TpSegment
  segId : ℤ
  vMax : ℚ
  vLimit : ℚ
  aMax : ℚ
  vScale : ℚ
  termCond : ℤ
  pausedFlag : Bool
  full : Bool
deriving DecidableEq

/-- Modelled from the spec: set-id on a planner queue. -/
def tpSetId (tp : TP_STRUCT) (i : ℤ) : TP_STRUCT := {tp with segId := i}

/-- Modelled from the spec: set-vmax on a planner queue. -/
def tpSetVmax (tp : TP_STRUCT) (v : ℚ) : TP_STRUCT := {tp with vMax := v}

/-- Modelled from the spec: set-vlimit on a planner queue. -/
def tpSetVlimit (tp : TP_STRUCT) (v : ℚ) : TP_STRUCT := {tp with vLimit := v}

/-- Modelled from the spec: set-amax on a planner queue. -/
def tpSetAmax (tp : TP_STRUCT) (v : ℚ) : TP_STRUCT := {tp with aMax := v}

/-- Modelled from the spec: set-vscale on a planner queue. -/
def tpSetVscale (tp : TP_STRUCT) (v : ℚ) : TP_STRUCT := {tp with vScale := v}

/-- Modelled from the spec: set-term-cond on a planner queue. -/
def tpSetTermCond (tp : TP_STRUCT) (c : ℤ) : TP_STRUCT := {tp with termCond := c}

/-- Modelled from the spec: pause a planner queue. -/
def tpPause (tp : TP_STRUCT) : TP_STRUCT := {tp with pausedFlag := true}

/-- Modelled from the spec: resume a planner queue. -/
def tpResume (tp : TP_STRUCT) : TP_STRUCT := {tp with pausedFlag := false}

/-- Modelled from the spec: abort empties the queue but does not destroy it. -/
def tpAbort (tp : TP_STRUCT) : TP_STRUCT := {tp with segments := []}

/-- Modelled from the spec: add-line returns ok (the queue with the segment
appended) or err (`none`, modelling the C return value -1). -/
def tpAddLine (tp : TP_STRUCT) (finish : EmcPose) : Option TP_STRUCT :=
  if tp.full then none
  else some {tp with segments := tp.segments ++ [TpSegment.line finish]}

/-- Modelled from the spec: add-circle returns ok or err. -/
def tpAddCircle (tp : TP_STRUCT) (finish : EmcPose) (center : PmCartesian)
    (normal : PmCartesian) (turn : ℤ) : Option TP_STRUCT :=
  if tp.full then none
  else some {tp with segments := tp.segments ++ [TpSegment.circle finish center normal turn]}

/-- An add-line call whose return value the caller ignores (the jog and home
arms): the queue is unchanged when the planner rejects the segment. -/
def tpAddLineIgn (tp : TP_STRUCT) (finish : EmcPose) : TP_STRUCT :=
  (tpAddLine tp finish).getD tp

/-- Kinematics type, from the kinematics contract. -/
inductive KINEMATICS_TYPE where
  | IDENTITY
  | FORWARD_ONLY
  | INVERSE_ONLY
  | BOTH
deriving DecidableEq

/-- The EMCMOT_COMMAND enum: every case of the dispatcher switch, plus
`OTHER` standing for any command value the switch does not handle (the
default arm). -/
inductive EmcmotCommandKind where
  | ABORT
  | FREE
  | COORD
  | TELEOP
  | SET_NUM_AXES
  | SET_WORLD_HOME
  | SET_JOINT_HOME
  | SET_HOME_OFFSET
  | OVERRIDE_LIMITS
  | SET_POSITION_LIMITS
  | SET_MAX_FERROR
  | SET_MIN_FERROR
  | JOG_CONT
  | JOG_INCR
  | JOG_ABS
  | SET_TERM_COND
  | SET_LINE
  | SET_CIRCLE
  | SET_VEL
  | SET_VEL_LIMIT
  | SET_AXIS_VEL_LIMIT
  | SET_HOMING_VEL
  | SET_ACC
  | PAUSE
  | RESUME
  | STEP
  | SCALE
  | DISABLE
  | ENABLE
  | ACTIVATE_AXIS
  | DEACTIVATE_AXIS
  | ENABLE_AMPLIFIER
  | DISABLE_AMPLIFIER
  | OPEN_LOG
  | START_LOG
  | STOP_LOG
  | CLOSE_LOG
  | HOME
  | ENABLE_WATCHDOG
  | DISABLE_WATCHDOG
  | CLEAR_PROBE_FLAGS
  | PROBE
  | SET_TELEOP_VECTOR
  | SET_DEBUG
  | OTHER
deriving DecidableEq

/-- The EMCMOT_COMMAND_* result codes written to `emcmotStatus->commandStatus`. -/
inductive EmcmotCommandStatus where
  | OK
  | INVALID_COMMAND
  | INVALID_PARAMS
  | BAD_EXEC
  | UNKNOWN_COMMAND
deriving DecidableEq

/-- EMCMOT_LOG_TYPE_* values used by the dispatcher; `NONE` is the zero
value written by CLOSE_LOG, `OTHER` stands for the remaining log types. -/
inductive LogType where
  | NONE
  | CMD
  | AXIS_POS
  | AXIS_VEL
  | POS_VOLTAGE
  | OTHER
deriving DecidableEq

/-- EMCLOG_*_TRIGGER values. -/
inductive LogTriggerType where
  | MANUAL_TRIGGER
  | DELTA_TRIGGER
  | OTHER
deriving DecidableEq

/-- EMCLOG_TRIGGER_ON_* values. -/
inductive LogTriggerVar where
  | ON_FERROR
  | ON_VOLT
  | ON_POS
  | ON_VEL
  | OTHER
deriving DecidableEq

/-- The shared command record (written by the supervisor, read - and, as
C5 investigates, in one place written - by the core). -/
structure EMCMOT_COMMAND_REC where
  head : ℕ
  tail : ℕ
  command : EmcmotCommandKind
  commandNum : ℤ
  axis : ℤ
  pos : EmcPose
  center : PmCartesian
  normal : PmCartesian
  turn : ℤ
  id : ℤ
  vel : ℚ
  acc : ℚ
  minLimit : ℚ
  maxLimit : ℚ
  maxFerror : ℚ
  minFerror : ℚ
  scale : ℚ
  offset : ℚ
  termCond : ℤ
  logSize : ℤ
  logSkip : ℤ
  logType : LogType
  logTriggerType : LogTriggerType
  logTriggerVariable : LogTriggerVar
  logTriggerThreshold : ℚ
  wdWait : ℤ
  debug : ℤ
deriving DecidableEq

/-- The shared status record (written by the core). -/
structure EMCMOT_STATUS_REC where
  head : ℕ
  tail : ℕ
  commandEcho : EmcmotCommandKind
  commandNumEcho : ℤ
  commandStatus : EmcmotCommandStatus
  motionFlag : MotionFlags
  axisFlag : Fin maxAxis → AxisFlags
  vel : ℚ
  acc : ℚ
  id : ℤ
  paused : Bool
  overrideLimits : Bool
  axVscale : Fin maxAxis → ℚ
  qVscale : ℚ
  probeTripped : Bool
  probing : Bool
  ferrorCurrent : Fin maxAxis → ℚ
  logOpen : Bool
  logStarted : Bool
  logSize : ℤ
  logSkip : ℤ
  logType : LogType
  logTriggerType : LogTriggerType
  logTriggerVariable : LogTriggerVar
  logTriggerThreshold : ℚ
  logStartVal : ℚ
  logPoints : ℤ

/-- The shared configuration record (written by the core). -/
structure EMCMOT_CONFIG_REC where
  head : ℕ
  tail : ℕ
  configNum : ℤ
  numAxes : ℤ
  minLimit : Fin maxAxis → ℚ
  maxLimit : Fin maxAxis → ℚ
  homeOffset : Fin maxAxis → ℚ
  maxFerror : Fin maxAxis → ℚ
  minFerror : Fin maxAxis → ℚ
  limitVel : ℚ
  axisLimitVel : Fin maxAxis → ℚ
  homingVel : Fin maxAxis → ℚ
  debug : ℤ

/-- The teleoperation scratch data in the debug record. -/
structure TeleopData where
  desiredVel : EmcPose
deriving DecidableEq

/-- The shared debug record (written by the core): scratch state, the mode
latches, the planner queue handles and the per-joint scratch arrays. -/
structure EMCMOT_DEBUG_REC where
  head : ℕ
  tail : ℕ
  split : ℕ
  coordinating : Bool
  teleoperating : Bool
  enabling : Bool
  allHomed : Bool
  teleop_data : TeleopData
  queue : TP_STRUCT
  freeAxis : Fin maxAxis → TP_STRUCT
  freePose : EmcPose
  jointPos : Fin maxAxis → ℚ
  oldJointPos : Fin maxAxis → ℚ
  rawOutput : Fin maxAxis → ℚ
  bigVel : Fin maxAxis → ℚ
  jointHome : Fin maxAxis → ℚ
  homingPhase : Fin maxAxis → ℤ
  overriding : Bool
  stepping : Bool
  idForStep : ℤ
  wdEnabling : Bool
  wdWait : ℤ

/-- The file-scope globals of command.c (`worldHome`, `logSkip`,
`loggingAxis`, `logStartTime`) together with the externs it writes
(`rehomeAll`, `num_axes`). -/
structure MotGlobals where
  worldHome : EmcPose
  logSkip : ℤ
  loggingAxis : ℤ
  logStartTime : ℤ
  rehomeAll : Bool
  num_axes : ℤ

/-- The whole mutable state the dispatcher touches: the three shared
records, the globals, and the log buffer length (`emcmotLog->howmany`). -/
structure MotState where
  command : EMCMOT_COMMAND_REC
  status : EMCMOT_STATUS_REC
  config : EMCMOT_CONFIG_REC
  debug : EMCMOT_DEBUG_REC
  globals : MotGlobals
  logHowmany : ℤ

/-- The read-only environment: the kinematics type and the opaque external
functions.  `kinematicsInverse` and `pmCartMag` are modelled from the spec
as opaque parameters (their code is outside the snapshot); `etime` is the
opaque clock. -/
structure KinEnv where
  kinType : KINEMATICS_TYPE
  kinematicsInverse : EmcPose → Fin maxAxis → ℚ
  pmCartMag : PmCartesian → ℚ
  etime : ℤ

/-- Turn the C int axis index into an in-range index, `none` when out of
range (the `axis < 0 || axis >= EMCMOT_MAX_AXIS` guard). -/
def axisIdx (a : ℤ) : Option (Fin maxAxis) :=
  if h : 0 ≤ a ∧ a < 8 then some ⟨a.toNat, by unfold maxAxis; omega⟩ else none

instance : NeZero maxAxis := ⟨by decide⟩

/-- AXRANGE(axis) = max_limit - min_limit.  Modelled from the spec glossary
(the macro lives in mot_priv.h, outside the snapshot). -/
def axrange (s : MotState) (ax : Fin maxAxis) : ℚ :=
  s.config.maxLimit ax - s.config.minLimit ax

/-- checkLimits(): true iff no active axis has any of PSL, NSL, PHL, NHL set. -/
def checkLimits (s : MotState) : Bool :=
  (List.finRange maxAxis).all fun ax =>
    !(s.status.axisFlag ax).activeFlag ||
      (!(s.status.axisFlag ax).pslFlag && !(s.status.axisFlag ax).nslFlag &&
       !(s.status.axisFlag ax).phlFlag && !(s.status.axisFlag ax).nhlFlag)

/-- checkJog(axis, vel): overridden by overrideLimits; false for an
out-of-range axis or a jog further onto a tripped limit. -/
def checkJog (s : MotState) (axis : ℤ) (vel : ℚ) : Bool :=
  if s.status.overrideLimits then true
  else match axisIdx axis with
    | none => false
    | some ax =>
      if vel > 0 ∧ (s.status.axisFlag ax).pslFlag then false
      else if vel > 0 ∧ (s.status.axisFlag ax).phlFlag then false
      else if vel < 0 ∧ (s.status.axisFlag ax).nslFlag then false
      else if vel < 0 ∧ (s.status.axisFlag ax).nhlFlag then false
      else true

/-- inRange(pos): run the inverse kinematics and require every active
axis' joint target to lie within [minLimit, maxLimit]. -/
def inRange (env : KinEnv) (s : MotState) (pos : EmcPose) : Bool :=
  (List.finRange maxAxis).all fun ax =>
    !(s.status.axisFlag ax).activeFlag ||
      !(env.kinematicsInverse pos ax > s.config.maxLimit ax ∨
        env.kinematicsInverse pos ax < s.config.minLimit ax)

/-- clearHomes(axis): for inverse-only kinematics clear the HOMED flag of
the jogged axis, or of every axis when rehomeAll is latched; always clear
the allHomed cache. -/
def clearHomes (env : KinEnv) (s : MotState) (axis : Fin maxAxis) : MotState :=
  let s1 :=
    if env.kinType = KINEMATICS_TYPE.INVERSE_ONLY then
      if s.globals.rehomeAll then
        {s with status := {s.status with
          axisFlag := fun i => {s.status.axisFlag i with homedFlag := false}}}
      else
        {s with status := {s.status with
          axisFlag := Function.update s.status.axisFlag axis
            {s.status.axisFlag axis with homedFlag := false}}}
    else s
  {s1 with debug := {s1.debug with allHomed := false}}

/-- SET_MOTION_ERROR_FLAG. -/
def setMotionError (s : MotState) (v : Bool) : MotState :=
  {s with status := {s.status with motionFlag := {s.status.motionFlag with errorFlag := v}}}

/-- Write the commandStatus result code. -/
def setCommandStatus (s : MotState) (c : EmcmotCommandStatus) : MotState :=
  {s with status := {s.status with commandStatus := c}}

/-- Replace the whole flag word of one axis. -/
def setAxisFlags (s : MotState) (ax : Fin maxAxis) (f : AxisFlags) : MotState :=
  {s with status := {s.status with axisFlag := Function.update s.status.axisFlag ax f}}

/-- SET_AXIS_ERROR_FLAG. -/
def setAxisError (s : MotState) (ax : Fin maxAxis) (v : Bool) : MotState :=
  setAxisFlags s ax {s.status.axisFlag ax with errorFlag := v}

/-- SET_AXIS_HOMING_FLAG. -/
def setAxisHoming (s : MotState) (ax : Fin maxAxis) (v : Bool) : MotState :=
  setAxisFlags s ax {s.status.axisFlag ax with homingFlag := v}

/-- SET_AXIS_HOMED_FLAG. -/
def setAxisHomed (s : MotState) (ax : Fin maxAxis) (v : Bool) : MotState :=
  setAxisFlags s ax {s.status.axisFlag ax with homedFlag := v}

/-- SET_AXIS_ACTIVE_FLAG. -/
def setAxisActive (s : MotState) (ax : Fin maxAxis) (v : Bool) : MotState :=
  setAxisFlags s ax {s.status.axisFlag ax with activeFlag := v}

/-- tpAbort on the coordinated queue. -/
def abortQueue (s : MotState) : MotState :=
  {s with debug := {s.debug with queue := tpAbort s.debug.queue}}

/-- Write the rehomeAll latch. -/
def setRehomeAll (s : MotState) (v : Bool) : MotState :=
  {s with globals := {s.globals with rehomeAll := v}}

/-- Write the x coordinate of emcmotDebug->freePose. -/
def setFreePoseX (s : MotState) (v : ℚ) : MotState :=
  {s with debug := {s.debug with freePose :=
    {s.debug.freePose with tran := {s.debug.freePose.tran with x := v}}}}

/-- Modelled from the spec: emcmot_config_change() flags a configuration
change (idempotent within a cycle) and, following the writer discipline of
the torn-read guard, increments the config head when no config write is
already in flight.  Its code lives outside the snapshot. -/
def emcmot_config_change (s : MotState) : MotState :=
  if s.config.head = s.config.tail then
    {s with config := {s.config with head := s.config.head + 1,
                                     configNum := s.config.configNum + 1}}
  else s

/-- EMCMOT_LOG_MAX.  Modelled from the spec: the maximum log size accepted
by OPEN_LOG (value not in the snapshot; any positive bound). -/
def EMCMOT_LOG_MAX : ℤ := 10000

/-- EMCMOT_ABORT arm. -/
def execABORT (s : MotState) : MotState :=
  if s.status.motionFlag.teleopFlag then
    {s with debug := {s.debug with teleop_data :=
      {desiredVel := {tran := {x := 0, y := 0, z := 0}, a := 0, b := 0, c := 0}}}}
  else if s.status.motionFlag.coordFlag then
    setMotionError (abortQueue s) false
  else
    match axisIdx s.command.axis with
    | none => s
    | some ax =>
      let s1 := {s with debug := {s.debug with
        freeAxis := Function.update s.debug.freeAxis ax (tpAbort (s.debug.freeAxis ax))}}
      setAxisError (setAxisHoming s1 ax false) ax false

/-- EMCMOT_FREE arm. -/
def execFREE (s : MotState) : MotState :=
  {s with debug := {s.debug with coordinating := false, teleoperating := false}}

/-- EMCMOT_COORD arm. -/
def execCOORD (env : KinEnv) (s : MotState) : MotState :=
  let s1 := {s with debug := {s.debug with coordinating := true, teleoperating := false}}
  if env.kinType ≠ KINEMATICS_TYPE.IDENTITY then
    if !s1.debug.allHomed then
      {s1 with debug := {s1.debug with coordinating := false}}
    else s1
  else s1

/-- EMCMOT_TELEOP arm.  Note: it does not touch the coordinating latch. -/
def execTELEOP (env : KinEnv) (s : MotState) : MotState :=
  let s1 := {s with debug := {s.debug with teleoperating := true}}
  if env.kinType ≠ KINEMATICS_TYPE.IDENTITY then
    if !s1.debug.allHomed then
      {s1 with debug := {s1.debug with teleoperating := false}}
    else s1
  else s1

/-- EMCMOT_SET_NUM_AXES arm: counting-number range check, then write both
the global and the config mirror; no emcmot_config_change call. -/
def execSET_NUM_AXES (s : MotState) : MotState :=
  if s.command.axis ≤ 0 ∨ s.command.axis > 8 then s
  else {s with globals := {s.globals with num_axes := s.command.axis},
               config := {s.config with numAxes := s.command.axis}}

/-- EMCMOT_SET_WORLD_HOME arm. -/
def execSET_WORLD_HOME (s : MotState) : MotState :=
  {s with globals := {s.globals with worldHome := s.command.pos}}

/-- EMCMOT_SET_JOINT_HOME arm. -/
def execSET_JOINT_HOME (s : MotState) : MotState :=
  match axisIdx s.command.axis with
  | none => s
  | some ax =>
    {s with debug := {s.debug with
      jointHome := Function.update s.debug.jointHome ax s.command.offset}}

/-- EMCMOT_SET_HOME_OFFSET arm (config change signalled before the guard). -/
def execSET_HOME_OFFSET (s : MotState) : MotState :=
  let s1 := emcmot_config_change s
  match axisIdx s1.command.axis with
  | none => s1
  | some ax =>
    {s1 with config := {s1.config with
      homeOffset := Function.update s1.config.homeOffset ax s1.command.offset}}

/-- EMCMOT_OVERRIDE_LIMITS arm. -/
def execOVERRIDE_LIMITS (s : MotState) : MotState :=
  let ov : Bool := if s.command.axis < 0 then false else true
  {s with status := {s.status with
            overrideLimits := ov,
            axisFlag := fun i => {s.status.axisFlag i with errorFlag := false}},
          debug := {s.debug with overriding := false}}

/-- EMCMOT_SET_POSITION_LIMITS arm. -/
def execSET_POSITION_LIMITS (s : MotState) : MotState :=
  let s1 := emcmot_config_change s
  match axisIdx s1.command.axis with
  | none => s1
  | some ax =>
    {s1 with config := {s1.config with
      minLimit := Function.update s1.config.minLimit ax s1.command.minLimit,
      maxLimit := Function.update s1.config.maxLimit ax s1.command.maxLimit}}

/-- EMCMOT_SET_MAX_FERROR arm: rejects out-of-range axis or negative value. -/
def execSET_MAX_FERROR (s : MotState) : MotState :=
  let s1 := emcmot_config_change s
  match axisIdx s1.command.axis with
  | none => s1
  | some ax =>
    if s1.command.maxFerror < 0 then s1
    else {s1 with config := {s1.config with
      maxFerror := Function.update s1.config.maxFerror ax s1.command.maxFerror}}

/-- EMCMOT_SET_MIN_FERROR arm. -/
def execSET_MIN_FERROR (s : MotState) : MotState :=
  let s1 := emcmot_config_change s
  match axisIdx s1.command.axis with
  | none => s1
  | some ax =>
    if s1.command.minFerror < 0 then s1
    else {s1 with config := {s1.config with
      minFerror := Function.update s1.config.minFerror ax s1.command.minFerror}}

/-- The JOG_CONT target: soft limit if homed, current plus/minus AXRANGE
if not. -/
def jogTargetCont (s : MotState) (ax : Fin maxAxis) : ℚ :=
  if s.command.vel > 0 then
    if (s.status.axisFlag ax).homedFlag then s.config.maxLimit ax
    else s.debug.jointPos ax + axrange s ax
  else
    if (s.status.axisFlag ax).homedFlag then s.config.minLimit ax
    else s.debug.jointPos ax - axrange s ax

/-- Push the pending freePose onto one joint's free queue with vmax = |vel|. -/
def pushFreeLine (s : MotState) (ax : Fin maxAxis) (vmax : ℚ) : MotState :=
  {s with debug := {s.debug with
    freeAxis := Function.update s.debug.freeAxis ax
      (tpAddLineIgn (tpSetVmax (s.debug.freeAxis ax) vmax) s.debug.freePose)}}

/-- EMCMOT_JOG_CONT arm. -/
def execJOG_CONT (env : KinEnv) (s : MotState) : MotState :=
  match axisIdx s.command.axis with
  | none => s
  | some ax =>
    if s.status.motionFlag.coordFlag then setAxisError s ax true
    else if !s.status.motionFlag.inposFlag then setAxisError s ax true
    else if !s.status.motionFlag.enableFlag then setAxisError s ax true
    else if !(checkJog s s.command.axis s.command.vel) then setAxisError s ax true
    else
      let s1 := setFreePoseX s (jogTargetCont s ax)
      let s2 := pushFreeLine s1 ax |s1.command.vel|
      clearHomes env (setAxisError s2 ax false) ax

/-- The JOG_INCR target: current plus/minus offset, clamped one-sidedly to
the soft limit when homed. -/
def jogTargetIncr (s : MotState) (ax : Fin maxAxis) : ℚ :=
  if s.command.vel > 0 then
    let t := s.debug.jointPos ax + s.command.offset
    if (s.status.axisFlag ax).homedFlag ∧ t > s.config.maxLimit ax then
      s.config.maxLimit ax
    else t
  else
    let t := s.debug.jointPos ax - s.command.offset
    if (s.status.axisFlag ax).homedFlag ∧ t < s.config.minLimit ax then
      s.config.minLimit ax
    else t

/-- EMCMOT_JOG_INCR arm. -/
def execJOG_INCR (env : KinEnv) (s : MotState) : MotState :=
  match axisIdx s.command.axis with
  | none => s
  | some ax =>
    if s.status.motionFlag.coordFlag || !s.status.motionFlag.inposFlag ||
        !s.status.motionFlag.enableFlag then
      setAxisError s ax true
    else if !(checkJog s s.command.axis s.command.vel) then setAxisError s ax true
    else
      let s1 := setFreePoseX s (jogTargetIncr s ax)
      let s2 := pushFreeLine s1 ax |s1.command.vel|
      clearHomes env (setAxisError s2 ax false) ax

/-- The JOG_ABS target: the offset, clamped to both soft limits when homed. -/
def jogTargetAbs (s : MotState) (ax : Fin maxAxis) : ℚ :=
  if (s.status.axisFlag ax).homedFlag then
    if s.command.offset > s.config.maxLimit ax then s.config.maxLimit ax
    else if s.command.offset < s.config.minLimit ax then s.config.minLimit ax
    else s.command.offset
  else s.command.offset

/-- EMCMOT_JOG_ABS arm. -/
def execJOG_ABS (env : KinEnv) (s : MotState) : MotState :=
  match axisIdx s.command.axis with
  | none => s
  | some ax =>
    if s.status.motionFlag.coordFlag || !s.status.motionFlag.inposFlag ||
        !s.status.motionFlag.enableFlag then
      setAxisError s ax true
    else if !(checkJog s s.command.axis s.command.vel) then setAxisError s ax true
    else
      let s1 := setFreePoseX s (jogTargetAbs s ax)
      let s2 := pushFreeLine s1 ax |s1.command.vel|
      clearHomes env (setAxisError s2 ax false) ax

/-- EMCMOT_SET_TERM_COND arm. -/
def execSET_TERM_COND (s : MotState) : MotState :=
  {s with debug := {s.debug with queue := tpSetTermCond s.debug.queue s.command.termCond}}

/-- EMCMOT_SET_LINE arm. -/
def execSET_LINE (env : KinEnv) (s : MotState) : MotState :=
  if !s.status.motionFlag.coordFlag || !s.status.motionFlag.enableFlag then
    setMotionError (setCommandStatus s EmcmotCommandStatus.INVALID_COMMAND) true
  else if !(inRange env s s.command.pos) then
    setMotionError (abortQueue (setCommandStatus s EmcmotCommandStatus.INVALID_PARAMS)) true
  else if !(checkLimits s) then
    setMotionError (abortQueue (setCommandStatus s EmcmotCommandStatus.INVALID_PARAMS)) true
  else
    let q1 := tpSetId s.debug.queue s.command.id
    match tpAddLine q1 s.command.pos with
    | none =>
      setMotionError (abortQueue (setCommandStatus
        {s with debug := {s.debug with queue := q1}} EmcmotCommandStatus.BAD_EXEC)) true
    | some q2 =>
      setRehomeAll (setMotionError {s with debug := {s.debug with queue := q2}} false) true

/-- EMCMOT_SET_CIRCLE arm. -/
def execSET_CIRCLE (env : KinEnv) (s : MotState) : MotState :=
  if !s.status.motionFlag.coordFlag || !s.status.motionFlag.enableFlag then
    setMotionError (setCommandStatus s EmcmotCommandStatus.INVALID_COMMAND) true
  else if !(inRange env s s.command.pos) then
    setMotionError (abortQueue (setCommandStatus s EmcmotCommandStatus.INVALID_PARAMS)) true
  else if !(checkLimits s) then
    setMotionError (abortQueue (setCommandStatus s EmcmotCommandStatus.INVALID_PARAMS)) true
  else
    let q1 := tpSetId s.debug.queue s.command.id
    match tpAddCircle q1 s.command.pos s.command.center s.command.normal s.command.turn with
    | none =>
      setMotionError (abortQueue (setCommandStatus
        {s with debug := {s.debug with queue := q1}} EmcmotCommandStatus.BAD_EXEC)) true
    | some q2 =>
      setRehomeAll (setMotionError {s with debug := {s.debug with queue := q2}} false) true

/-- EMCMOT_SET_VEL arm. -/
def execSET_VEL (s : MotState) : MotState :=
  let v := s.command.vel
  {s with status := {s.status with vel := v},
          debug := {s.debug with
            freeAxis := fun i => tpSetVmax (s.debug.freeAxis i) v,
            queue := tpSetVmax s.debug.queue v}}

/-- EMCMOT_SET_VEL_LIMIT arm. -/
def execSET_VEL_LIMIT (s : MotState) : MotState :=
  let s1 := emcmot_config_change s
  {s1 with config := {s1.config with limitVel := s1.command.vel},
           debug := {s1.debug with queue := tpSetVlimit s1.debug.queue s1.command.vel}}

/-- EMCMOT_SET_AXIS_VEL_LIMIT arm. -/
def execSET_AXIS_VEL_LIMIT (s : MotState) : MotState :=
  let s1 := emcmot_config_change s
  match axisIdx s1.command.axis with
  | none => s1
  | some ax =>
    {s1 with
      debug := {s1.debug with
        freeAxis := Function.update s1.debug.freeAxis ax
          (tpSetVlimit (s1.debug.freeAxis ax) s1.command.vel),
        bigVel := Function.update s1.debug.bigVel ax (10 * s1.command.vel)},
      config := {s1.config with
        axisLimitVel := Function.update s1.config.axisLimitVel ax s1.command.vel}}

/-- EMCMOT_SET_HOMING_VEL arm. -/
def execSET_HOMING_VEL (s : MotState) : MotState :=
  let s1 := emcmot_config_change s
  match axisIdx s1.command.axis with
  | none => s1
  | some ax =>
    {s1 with config := {s1.config with
      homingVel := Function.update s1.config.homingVel ax s1.command.vel}}

/-- EMCMOT_SET_ACC arm. -/
def execSET_ACC (s : MotState) : MotState :=
  let a := s.command.acc
  {s with status := {s.status with acc := a},
          debug := {s.debug with
            freeAxis := fun i => tpSetAmax (s.debug.freeAxis i) a,
            queue := tpSetAmax s.debug.queue a}}

/-- EMCMOT_PAUSE arm. -/
def execPAUSE (s : MotState) : MotState :=
  {s with status := {s.status with paused := true},
          debug := {s.debug with
            freeAxis := fun i => tpPause (s.debug.freeAxis i),
            queue := tpPause s.debug.queue}}

/-- EMCMOT_RESUME arm. -/
def execRESUME (s : MotState) : MotState :=
  {s with status := {s.status with paused := false},
          debug := {s.debug with
            stepping := false,
            freeAxis := fun i => tpResume (s.debug.freeAxis i),
            queue := tpResume s.debug.queue}}

/-- EMCMOT_STEP arm. -/
def execSTEP (s : MotState) : MotState :=
  {s with status := {s.status with paused := false},
          debug := {s.debug with
            idForStep := s.status.id,
            stepping := true,
            freeAxis := fun i => tpResume (s.debug.freeAxis i),
            queue := tpResume s.debug.queue}}

/-- EMCMOT_SCALE arm.  Note: a negative scale is clamped by writing into
the shared command record itself. -/
def execSCALE (s : MotState) : MotState :=
  let s1 := if s.command.scale < 0 then
              {s with command := {s.command with scale := 0}}
            else s
  let sc := s1.command.scale
  {s1 with status := {s1.status with axVscale := fun _ => sc, qVscale := sc},
           debug := {s1.debug with
             freeAxis := fun i => tpSetVscale (s1.debug.freeAxis i) sc,
             queue := tpSetVscale s1.debug.queue sc}}

/-- EMCMOT_DISABLE arm. -/
def execDISABLE (env : KinEnv) (s : MotState) : MotState :=
  let s1 := {s with debug := {s.debug with enabling := false}}
  if env.kinType = KINEMATICS_TYPE.INVERSE_ONLY then
    {s1 with debug := {s1.debug with teleoperating := false, coordinating := false}}
  else s1

/-- EMCMOT_ENABLE arm. -/
def execENABLE (env : KinEnv) (s : MotState) : MotState :=
  let s1 := {s with debug := {s.debug with enabling := true}}
  if env.kinType = KINEMATICS_TYPE.INVERSE_ONLY then
    {s1 with debug := {s1.debug with teleoperating := false, coordinating := false}}
  else s1

/-- EMCMOT_ACTIVATE_AXIS arm. -/
def execACTIVATE_AXIS (s : MotState) : MotState :=
  match axisIdx s.command.axis with
  | none => s
  | some ax => setAxisActive s ax true

/-- EMCMOT_DEACTIVATE_AXIS arm. -/
def execDEACTIVATE_AXIS (s : MotState) : MotState :=
  match axisIdx s.command.axis with
  | none => s
  | some ax => setAxisActive s ax false

/-- EMCMOT_ENABLE_AMPLIFIER arm (body compiled out in the source). -/
def execENABLE_AMPLIFIER (s : MotState) : MotState := s

/-- EMCMOT_DISABLE_AMPLIFIER arm (body compiled out in the source). -/
def execDISABLE_AMPLIFIER (s : MotState) : MotState := s

/-- EMCMOT_OPEN_LOG arm. -/
def execOPEN_LOG (s : MotState) : MotState :=
  let ax := s.command.axis
  let valid : Bool :=
    if s.command.logSize > 0 ∧ s.command.logSize ≤ EMCMOT_LOG_MAX then
      match s.command.logType with
      | LogType.AXIS_POS => decide (0 ≤ ax ∧ ax < 8)
      | LogType.AXIS_VEL => decide (0 ≤ ax ∧ ax < 8)
      | LogType.POS_VOLTAGE => decide (0 ≤ ax ∧ ax < 8)
      | _ => true
    else false
  if valid then
    let s2 := {s with
      globals := {s.globals with loggingAxis := ax},
      logHowmany := 0,
      status := {s.status with
        logOpen := true, logStarted := false,
        logSize := s.command.logSize, logSkip := s.command.logSkip,
        logType := s.command.logType,
        logTriggerType := s.command.logTriggerType,
        logTriggerVariable := s.command.logTriggerVariable,
        logTriggerThreshold := s.command.logTriggerThreshold}}
    match axisIdx ax with
    | some axF =>
      if s2.status.logTriggerType = LogTriggerType.DELTA_TRIGGER then
        let v := match s2.status.logTriggerVariable with
          | LogTriggerVar.ON_FERROR => s2.status.ferrorCurrent axF
          | LogTriggerVar.ON_VOLT => s2.debug.rawOutput axF
          | LogTriggerVar.ON_POS => s2.debug.jointPos axF
          | LogTriggerVar.ON_VEL => s2.debug.jointPos axF - s2.debug.oldJointPos axF
          | LogTriggerVar.OTHER => s2.status.logStartVal
        {s2 with status := {s2.status with logStartVal := v}}
      else s2
    | none => s2
  else s

/-- EMCMOT_START_LOG arm. -/
def execSTART_LOG (env : KinEnv) (s : MotState) : MotState :=
  if s.status.logType = LogType.POS_VOLTAGE then s
  else if s.status.logOpen ∧ s.status.logTriggerType = LogTriggerType.MANUAL_TRIGGER then
    {s with globals := {s.globals with logStartTime := env.etime, logSkip := 0},
            status := {s.status with logStarted := true}}
  else s

/-- EMCMOT_STOP_LOG arm. -/
def execSTOP_LOG (s : MotState) : MotState :=
  {s with status := {s.status with logStarted := false}}

/-- EMCMOT_CLOSE_LOG arm. -/
def execCLOSE_LOG (s : MotState) : MotState :=
  {s with status := {s.status with
    logOpen := false, logStarted := false, logSize := 0, logSkip := 0,
    logType := LogType.NONE}}

/-- EMCMOT_HOME arm. -/
def execHOME (s : MotState) : MotState :=
  match axisIdx s.command.axis with
  | none => s
  | some ax =>
    if s.status.motionFlag.coordFlag || !s.status.motionFlag.enableFlag then s
    else
      let tx := if s.config.homingVel ax > 0 then 2 * axrange s ax
                else -(2 * axrange s ax)
      let s1 := setFreePoseX s tx
      let s2 := pushFreeLine s1 ax |s1.config.homingVel ax|
      let s3 := {s2 with debug := {s2.debug with
        homingPhase := Function.update s2.debug.homingPhase ax 1}}
      setAxisHomed (setAxisHoming s3 ax true) ax false

/-- EMCMOT_ENABLE_WATCHDOG arm. -/
def execENABLE_WATCHDOG (s : MotState) : MotState :=
  {s with debug := {s.debug with
    wdEnabling := true,
    wdWait := if s.command.wdWait < 0 then 0 else s.command.wdWait}}

/-- EMCMOT_DISABLE_WATCHDOG arm. -/
def execDISABLE_WATCHDOG (s : MotState) : MotState :=
  {s with debug := {s.debug with wdEnabling := false}}

/-- EMCMOT_CLEAR_PROBE_FLAGS arm. -/
def execCLEAR_PROBE_FLAGS (s : MotState) : MotState :=
  {s with status := {s.status with probeTripped := false, probing := true}}

/-- EMCMOT_PROBE arm (SET_LINE with probe arming on success). -/
def execPROBE (env : KinEnv) (s : MotState) : MotState :=
  if !s.status.motionFlag.coordFlag || !s.status.motionFlag.enableFlag then
    setMotionError (setCommandStatus s EmcmotCommandStatus.INVALID_COMMAND) true
  else if !(inRange env s s.command.pos) then
    setMotionError (abortQueue (setCommandStatus s EmcmotCommandStatus.INVALID_PARAMS)) true
  else if !(checkLimits s) then
    setMotionError (abortQueue (setCommandStatus s EmcmotCommandStatus.INVALID_PARAMS)) true
  else
    let q1 := tpSetId s.debug.queue s.command.id
    match tpAddLine q1 s.command.pos with
    | none =>
      setMotionError (abortQueue (setCommandStatus
        {s with debug := {s.debug with queue := q1}} EmcmotCommandStatus.BAD_EXEC)) true
    | some q2 =>
      let s1 := {s with debug := {s.debug with queue := q2},
                        status := {s.status with probeTripped := false, probing := true}}
      setRehomeAll (setMotionError s1 false) true

/-- EMCMOT_SET_TELEOP_VECTOR arm. -/
def execSET_TELEOP_VECTOR (env : KinEnv) (s : MotState) : MotState :=
  if !s.status.motionFlag.teleopFlag || !s.status.motionFlag.enableFlag then s
  else
    let dv := s.command.pos
    let m0 := env.pmCartMag dv.tran
    let m1 := if dv.a > m0 then dv.a else m0
    let m2 := if dv.b > m1 then dv.b else m1
    let velmag := if dv.c > m2 then dv.c else m2
    let dv2 :=
      if velmag > s.config.limitVel then
        let r := s.config.limitVel / velmag
        {tran := {x := r * dv.tran.x, y := r * dv.tran.y, z := r * dv.tran.z},
         a := dv.a * r, b := dv.b * r, c := dv.c * r}
      else dv
    {s with debug := {s.debug with teleop_data := {desiredVel := dv2}},
            globals := {s.globals with rehomeAll := true}}

/-- EMCMOT_SET_DEBUG arm (config change signalled after the write). -/
def execSET_DEBUG (s : MotState) : MotState :=
  emcmot_config_change {s with config := {s.config with debug := s.command.debug}}

/-- The default arm: unrecognized command. -/
def execUNKNOWN (s : MotState) : MotState :=
  setCommandStatus s EmcmotCommandStatus.UNKNOWN_COMMAND

/-- The big dispatcher switch, on the command kind read from the shared
command record. -/
def dispatchCommand (env : KinEnv) (c : EmcmotCommandKind) (s : MotState) : MotState :=
  match c with
  | EmcmotCommandKind.ABORT => execABORT s
  | EmcmotCommandKind.FREE => execFREE s
  | EmcmotCommandKind.COORD => execCOORD env s
  | EmcmotCommandKind.TELEOP => execTELEOP env s
  | EmcmotCommandKind.SET_NUM_AXES => execSET_NUM_AXES s
  | EmcmotCommandKind.SET_WORLD_HOME => execSET_WORLD_HOME s
  | EmcmotCommandKind.SET_JOINT_HOME => execSET_JOINT_HOME s
  | EmcmotCommandKind.SET_HOME_OFFSET => execSET_HOME_OFFSET s
  | EmcmotCommandKind.OVERRIDE_LIMITS => execOVERRIDE_LIMITS s
  | EmcmotCommandKind.SET_POSITION_LIMITS => execSET_POSITION_LIMITS s
  | EmcmotCommandKind.SET_MAX_FERROR => execSET_MAX_FERROR s
  | EmcmotCommandKind.SET_MIN_FERROR => execSET_MIN_FERROR s
  | EmcmotCommandKind.JOG_CONT => execJOG_CONT env s
  | EmcmotCommandKind.JOG_INCR => execJOG_INCR env s
  | EmcmotCommandKind.JOG_ABS => execJOG_ABS env s
  | EmcmotCommandKind.SET_TERM_COND => execSET_TERM_COND s
  | EmcmotCommandKind.SET_LINE => execSET_LINE env s
  | EmcmotCommandKind.SET_CIRCLE => execSET_CIRCLE env s
  | EmcmotCommandKind.SET_VEL => execSET_VEL s
  | EmcmotCommandKind.SET_VEL_LIMIT => execSET_VEL_LIMIT s
  | EmcmotCommandKind.SET_AXIS_VEL_LIMIT => execSET_AXIS_VEL_LIMIT s
  | EmcmotCommandKind.SET_HOMING_VEL => execSET_HOMING_VEL s
  | EmcmotCommandKind.SET_ACC => execSET_ACC s
  | EmcmotCommandKind.PAUSE => execPAUSE s
  | EmcmotCommandKind.RESUME => execRESUME s
  | EmcmotCommandKind.STEP => execSTEP s
  | EmcmotCommandKind.SCALE => execSCALE s
  | EmcmotCommandKind.DISABLE => execDISABLE env s
  | EmcmotCommandKind.ENABLE => execENABLE env s
  | EmcmotCommandKind.ACTIVATE_AXIS => execACTIVATE_AXIS s
  | EmcmotCommandKind.DEACTIVATE_AXIS => execDEACTIVATE_AXIS s
  | EmcmotCommandKind.ENABLE_AMPLIFIER => execENABLE_AMPLIFIER s
  | EmcmotCommandKind.DISABLE_AMPLIFIER => execDISABLE_AMPLIFIER s
  | EmcmotCommandKind.OPEN_LOG => execOPEN_LOG s
  | EmcmotCommandKind.START_LOG => execSTART_LOG env s
  | EmcmotCommandKind.STOP_LOG => execSTOP_LOG s
  | EmcmotCommandKind.CLOSE_LOG => execCLOSE_LOG s
  | EmcmotCommandKind.HOME => execHOME s
  | EmcmotCommandKind.ENABLE_WATCHDOG => execENABLE_WATCHDOG s
  | EmcmotCommandKind.DISABLE_WATCHDOG => execDISABLE_WATCHDOG s
  | EmcmotCommandKind.CLEAR_PROBE_FLAGS => execCLEAR_PROBE_FLAGS s
  | EmcmotCommandKind.PROBE => execPROBE env s
  | EmcmotCommandKind.SET_TELEOP_VECTOR => execSET_TELEOP_VECTOR env s
  | EmcmotCommandKind.SET_DEBUG => execSET_DEBUG s
  | EmcmotCommandKind.OTHER => execUNKNOWN s

/-- The begin-write bracket of the handler: increment status and debug
heads, echo the command kind and number, default the result to OK, and
append a command log entry when command logging is active. -/
def beginWrite (s : MotState) : MotState :=
  let s1 := {s with
    status := {s.status with
      head := s.status.head + 1,
      commandEcho := s.command.command,
      commandNumEcho := s.command.commandNum,
      commandStatus := EmcmotCommandStatus.OK},
    debug := {s.debug with head := s.debug.head + 1}}
  if s1.status.logStarted ∧ s1.status.logType = LogType.CMD then
    {s1 with logHowmany := s1.logHowmany + 1,
             status := {s1.status with logPoints := s1.logHowmany + 1}}
  else s1

/-- The publish bracket of the handler: equalize the tails of the status,
config and debug records to their heads. -/
def publishRecords (s : MotState) : MotState :=
  {s with status := {s.status with tail := s.status.head},
          config := {s.config with tail := s.config.head},
          debug := {s.debug with tail := s.debug.head}}

/-- emcmotCommandHandler(): torn-read check on the command record, stale
sequence-number check, then begin-write, dispatch, publish. -/
def emcmotCommandHandler (env : KinEnv) (s : MotState) : MotState :=
  if s.command.head ≠ s.command.tail then
    {s with debug := {s.debug with split := s.debug.split + 1}}
  else if s.command.commandNum = s.status.commandNumEcho then s
  else publishRecords (dispatchCommand env s.command.command (beginWrite s))

/-- The zero Cartesian vector. -/
def zeroCart : PmCartesian := {x := 0, y := 0, z := 0}

/-- The zero pose. -/
def zeroPose : EmcPose := {tran := zeroCart, a := 0, b := 0, c := 0}

/-- A freshly initialized planner queue. -/
def tpInit : TP_STRUCT :=
  {segments := [], segId := 0, vMax := 0, vLimit := 0, aMax := 0, vScale := 1,
   termCond := 0, pausedFlag := false, full := false}

/-- Per-axis flags of a powered-up but unhomed machine: active, nothing
tripped. -/
def axisFlagsInit : AxisFlags :=
  {activeFlag := true, homedFlag := false, homingFlag := false, errorFlag := false,
   pslFlag := false, nslFlag := false, phlFlag := false, nhlFlag := false}

/-- Motion flags of an idle machine: in position, nothing else set. -/
def motionFlagsInit : MotionFlags :=
  {enableFlag := false, coordFlag := false, teleopFlag := false, inposFlag := true,
   errorFlag := false}

/-- A command record template (ABORT, sequence number 1). -/
def commandInit : EMCMOT_COMMAND_REC :=
  {head := 0, tail := 0, command := EmcmotCommandKind.ABORT, commandNum := 1, axis := 0,
   pos := zeroPose, center := zeroCart, normal := zeroCart, turn := 0, id := 0,
   vel := 0, acc := 0, minLimit := 0, maxLimit := 0, maxFerror := 0, minFerror := 0,
   scale := 1, offset := 0, termCond := 0, logSize := 0, logSkip := 0,
   logType := LogType.NONE, logTriggerType := LogTriggerType.MANUAL_TRIGGER,
   logTriggerVariable := LogTriggerVar.OTHER, logTriggerThreshold := 0, wdWait := 0,
   debug := 0}

/-- A status record template (no command processed yet). -/
def statusInit : EMCMOT_STATUS_REC :=
  {head := 0, tail := 0, commandEcho := EmcmotCommandKind.ABORT, commandNumEcho := 0,
   commandStatus := EmcmotCommandStatus.OK, motionFlag := motionFlagsInit,
   axisFlag := fun _ => axisFlagsInit, vel := 0, acc := 0, id := 0, paused := false,
   overrideLimits := false, axVscale := fun _ => 1, qVscale := 1, probeTripped := false,
   probing := false, ferrorCurrent := fun _ => 0, logOpen := false, logStarted := false,
   logSize := 0, logSkip := 0, logType := LogType.NONE,
   logTriggerType := LogTriggerType.MANUAL_TRIGGER,
   logTriggerVariable := LogTriggerVar.OTHER,
   logTriggerThreshold := 0, logStartVal := 0, logPoints := 0}

/-- A config record template following the spec scenarios: 8 axes, travel
limits -10 and 10 on every axis. -/
def configInit : EMCMOT_CONFIG_REC :=
  {head := 0, tail := 0, configNum := 0, numAxes := 8,
   minLimit := fun _ => -10, maxLimit := fun _ => 10, homeOffset := fun _ => 0,
   maxFerror := fun _ => 1, minFerror := fun _ => 1, limitVel := 100,
   axisLimitVel := fun _ => 100, homingVel := fun _ => 1, debug := 0}

/-- A debug record template: all latches down, queues fresh. -/
def debugInit : EMCMOT_DEBUG_REC :=
  {head := 0, tail := 0, split := 0, coordinating := false, teleoperating := false,
   enabling := false, allHomed := false, teleop_data := {desiredVel := zeroPose},
   queue := tpInit, freeAxis := fun _ => tpInit, freePose := zeroPose,
   jointPos := fun _ => 0, oldJointPos := fun _ => 0, rawOutput := fun _ => 0,
   bigVel := fun _ => 0, jointHome := fun _ => 0, homingPhase := fun _ => 0,
   overriding := false, stepping := false, idForStep := 0, wdEnabling := false,
   wdWait := 0}

/-- Globals template. -/
def globalsInit : MotGlobals :=
  {worldHome := zeroPose, logSkip := 0, loggingAxis := 0, logStartTime := 0,
   rehomeAll := false, num_axes := 8}

/-- The base machine state used by the concrete scenarios. -/
def baseState : MotState :=
  {command := commandInit, status := statusInit, config := configInit,
   debug := debugInit, globals := globalsInit, logHowmany := 0}

/-- The identity inverse kinematics: joints 0..5 are x, y, z, a, b, c. -/
def kinInvIdentity (p : EmcPose) : Fin maxAxis → ℚ :=
  ![p.tran.x, p.tran.y, p.tran.z, p.a, p.b, p.c, 0, 0]

/-- A concrete translation magnitude used to instantiate the opaque
pmCartMag in closed scenarios: nonnegative and positively homogeneous, and
it agrees with the Euclidean magnitude on every axis-aligned vector the
scenarios use. -/
def taxiMag (t : PmCartesian) : ℚ := |t.x| + |t.y| + |t.z|

/-- Environment of an identity-kinematics machine. -/
def envIdentity : KinEnv :=
  {kinType := KINEMATICS_TYPE.IDENTITY, kinematicsInverse := kinInvIdentity,
   pmCartMag := taxiMag, etime := 0}

/-- Environment of an inverse-only-kinematics machine. -/
def envInvOnly : KinEnv :=
  {kinType := KINEMATICS_TYPE.INVERSE_ONLY, kinematicsInverse := kinInvIdentity,
   pmCartMag := taxiMag, etime := 0}

/-- Fields no switch arm may touch: the status and debug head and tail
counters (only the begin-write and publish brackets move them) and the
config tail. -/
def SteadyArm (s t : MotState) : Prop :=
  t.status.head = s.status.head ∧ t.status.tail = s.status.tail ∧
  t.debug.head = s.debug.head ∧ t.debug.tail = s.debug.tail ∧
  t.config.tail = s.config.tail

/-- An arm that additionally leaves the two mode latches and the whole
shared command record untouched. -/
def QuietArm (s t : MotState) : Prop :=
  SteadyArm s t ∧
  t.debug.coordinating = s.debug.coordinating ∧
  t.debug.teleoperating = s.debug.teleoperating ∧
  t.command = s.command

lemma quiet_execABORT (s : MotState) : QuietArm s (execABORT s) := by
  unfold QuietArm SteadyArm execABORT
  cases h : axisIdx s.command.axis <;> (try split_ifs) <;>
    simp [h, setMotionError, abortQueue, setAxisError, setAxisFlags, setAxisHoming, tpAbort]

lemma quiet_execSET_NUM_AXES (s : MotState) : QuietArm s (execSET_NUM_AXES s) := by
  unfold QuietArm SteadyArm execSET_NUM_AXES
  split_ifs <;> simp

lemma quiet_execSET_WORLD_HOME (s : MotState) : QuietArm s (execSET_WORLD_HOME s) := by
  unfold QuietArm SteadyArm execSET_WORLD_HOME
  simp

lemma quiet_execSET_JOINT_HOME (s : MotState) : QuietArm s (execSET_JOINT_HOME s) := by
  unfold QuietArm SteadyArm execSET_JOINT_HOME
  cases h : axisIdx s.command.axis <;> simp [h]

lemma quiet_execSET_HOME_OFFSET (s : MotState) : QuietArm s (execSET_HOME_OFFSET s) := by
  unfold QuietArm SteadyArm execSET_HOME_OFFSET emcmot_config_change
  split_ifs <;> cases h : axisIdx s.command.axis <;> simp [h]

lemma quiet_execOVERRIDE_LIMITS (s : MotState) : QuietArm s (execOVERRIDE_LIMITS s) := by
  unfold QuietArm SteadyArm execOVERRIDE_LIMITS
  simp

lemma quiet_execSET_POSITION_LIMITS (s : MotState) : QuietArm s (execSET_POSITION_LIMITS s) := by
  unfold QuietArm SteadyArm execSET_POSITION_LIMITS emcmot_config_change
  split_ifs <;> cases h : axisIdx s.command.axis <;> simp [h]

lemma quiet_execSET_MAX_FERROR (s : MotState) : QuietArm s (execSET_MAX_FERROR s) := by
  unfold QuietArm SteadyArm execSET_MAX_FERROR emcmot_config_change
  split_ifs <;> cases h : axisIdx s.command.axis <;> simp only [h] <;> (try split_ifs) <;> simp

lemma quiet_execSET_MIN_FERROR (s : MotState) : QuietArm s (execSET_MIN_FERROR s) := by
  unfold QuietArm SteadyArm execSET_MIN_FERROR emcmot_config_change
  split_ifs <;> cases h : axisIdx s.command.axis <;> simp only [h] <;> (try split_ifs) <;> simp

lemma quiet_execJOG_CONT (env : KinEnv) (s : MotState) : QuietArm s (execJOG_CONT env s) := by
  unfold QuietArm SteadyArm execJOG_CONT clearHomes setAxisError setAxisFlags setFreePoseX pushFreeLine
  cases h : axisIdx s.command.axis <;> simp only [h] <;> (try split_ifs) <;> simp

lemma quiet_execJOG_INCR (env : KinEnv) (s : MotState) : QuietArm s (execJOG_INCR env s) := by
  unfold QuietArm SteadyArm execJOG_INCR clearHomes setAxisError setAxisFlags setFreePoseX pushFreeLine
  cases h : axisIdx s.command.axis <;> simp only [h] <;> (try split_ifs) <;> simp

lemma quiet_execJOG_ABS (env : KinEnv) (s : MotState) : QuietArm s (execJOG_ABS env s) := by
  unfold QuietArm SteadyArm execJOG_ABS clearHomes setAxisError setAxisFlags setFreePoseX pushFreeLine
  cases h : axisIdx s.command.axis <;> simp only [h] <;> (try split_ifs) <;> simp

lemma quiet_execSET_TERM_COND (s : MotState) : QuietArm s (execSET_TERM_COND s) := by
  unfold QuietArm SteadyArm execSET_TERM_COND
  simp

lemma quiet_execSET_LINE (env : KinEnv) (s : MotState) : QuietArm s (execSET_LINE env s) := by
  unfold QuietArm SteadyArm execSET_LINE
  split_ifs <;> try simp [setMotionError, abortQueue, setCommandStatus, setRehomeAll]
  rcases tpAddLine (tpSetId s.debug.queue s.command.id) s.command.pos with _ | q2 <;>
    simp [setMotionError, abortQueue, setCommandStatus, setRehomeAll]

lemma quiet_execSET_CIRCLE (env : KinEnv) (s : MotState) : QuietArm s (execSET_CIRCLE env s) := by
  unfold QuietArm SteadyArm execSET_CIRCLE
  split_ifs <;> try simp [setMotionError, abortQueue, setCommandStatus, setRehomeAll]
  rcases tpAddCircle (tpSetId s.debug.queue s.command.id) s.command.pos s.command.center
      s.command.normal s.command.turn with _ | q2 <;>
    simp [setMotionError, abortQueue, setCommandStatus, setRehomeAll]

lemma quiet_execSET_VEL (s : MotState) : QuietArm s (execSET_VEL s) := by
  unfold QuietArm SteadyArm execSET_VEL
  simp

lemma quiet_execSET_VEL_LIMIT (s : MotState) : QuietArm s (execSET_VEL_LIMIT s) := by
  unfold QuietArm SteadyArm execSET_VEL_LIMIT emcmot_config_change
  split_ifs <;> simp

lemma quiet_execSET_AXIS_VEL_LIMIT (s : MotState) : QuietArm s (execSET_AXIS_VEL_LIMIT s) := by
  unfold QuietArm SteadyArm execSET_AXIS_VEL_LIMIT emcmot_config_change
  split_ifs <;> cases h : axisIdx s.command.axis <;> simp [h]

lemma quiet_execSET_HOMING_VEL (s : MotState) : QuietArm s (execSET_HOMING_VEL s) := by
  unfold QuietArm SteadyArm execSET_HOMING_VEL emcmot_config_change
  split_ifs <;> cases h : axisIdx s.command.axis <;> simp [h]

lemma quiet_execSET_ACC (s : MotState) : QuietArm s (execSET_ACC s) := by
  unfold QuietArm SteadyArm execSET_ACC
  simp

lemma quiet_execPAUSE (s : MotState) : QuietArm s (execPAUSE s) := by
  unfold QuietArm SteadyArm execPAUSE
  simp

lemma quiet_execRESUME (s : MotState) : QuietArm s (execRESUME s) := by
  unfold QuietArm SteadyArm execRESUME
  simp

lemma quiet_execSTEP (s : MotState) : QuietArm s (execSTEP s) := by
  unfold QuietArm SteadyArm execSTEP
  simp

lemma quiet_execACTIVATE_AXIS (s : MotState) : QuietArm s (execACTIVATE_AXIS s) := by
  unfold QuietArm SteadyArm execACTIVATE_AXIS setAxisActive setAxisFlags
  cases h : axisIdx s.command.axis <;> simp [h]

lemma quiet_execDEACTIVATE_AXIS (s : MotState) : QuietArm s (execDEACTIVATE_AXIS s) := by
  unfold QuietArm SteadyArm execDEACTIVATE_AXIS setAxisActive setAxisFlags
  cases h : axisIdx s.command.axis <;> simp [h]

lemma quiet_execENABLE_AMPLIFIER (s : MotState) : QuietArm s (execENABLE_AMPLIFIER s) := by
  unfold QuietArm SteadyArm execENABLE_AMPLIFIER
  simp

lemma quiet_execDISABLE_AMPLIFIER (s : MotState) : QuietArm s (execDISABLE_AMPLIFIER s) := by
  unfold QuietArm SteadyArm execDISABLE_AMPLIFIER
  simp

lemma quiet_execOPEN_LOG (s : MotState) : QuietArm s (execOPEN_LOG s) := by
  unfold QuietArm SteadyArm execOPEN_LOG
  split_ifs <;> cases h : axisIdx s.command.axis <;> simp only [h] <;> (try split_ifs) <;>
    (try cases s.command.logTriggerVariable) <;> simp

lemma quiet_execSTART_LOG (env : KinEnv) (s : MotState) : QuietArm s (execSTART_LOG env s) := by
  unfold QuietArm SteadyArm execSTART_LOG
  split_ifs <;> simp

lemma quiet_execSTOP_LOG (s : MotState) : QuietArm s (execSTOP_LOG s) := by
  unfold QuietArm SteadyArm execSTOP_LOG
  simp

lemma quiet_execCLOSE_LOG (s : MotState) : QuietArm s (execCLOSE_LOG s) := by
  unfold QuietArm SteadyArm execCLOSE_LOG
  simp

lemma quiet_execHOME (s : MotState) : QuietArm s (execHOME s) := by
  unfold QuietArm SteadyArm execHOME setAxisHomed setAxisHoming setAxisFlags setFreePoseX pushFreeLine
  cases h : axisIdx s.command.axis <;> simp only [h] <;> (try split_ifs) <;> simp

lemma quiet_execENABLE_WATCHDOG (s : MotState) : QuietArm s (execENABLE_WATCHDOG s) := by
  unfold QuietArm SteadyArm execENABLE_WATCHDOG
  simp

lemma quiet_execDISABLE_WATCHDOG (s : MotState) : QuietArm s (execDISABLE_WATCHDOG s) := by
  unfold QuietArm SteadyArm execDISABLE_WATCHDOG
  simp

lemma quiet_execCLEAR_PROBE_FLAGS (s : MotState) : QuietArm s (execCLEAR_PROBE_FLAGS s) := by
  unfold QuietArm SteadyArm execCLEAR_PROBE_FLAGS
  simp

lemma quiet_execPROBE (env : KinEnv) (s : MotState) : QuietArm s (execPROBE env s) := by
  unfold QuietArm SteadyArm execPROBE
  split_ifs <;> try simp [setMotionError, abortQueue, setCommandStatus, setRehomeAll]
  rcases tpAddLine (tpSetId s.debug.queue s.command.id) s.command.pos with _ | q2 <;>
    simp [setMotionError, abortQueue, setCommandStatus, setRehomeAll]

lemma quiet_execSET_TELEOP_VECTOR (env : KinEnv) (s : MotState) :
    QuietArm s (execSET_TELEOP_VECTOR env s) := by
  unfold QuietArm SteadyArm execSET_TELEOP_VECTOR
  split_ifs <;> simp

lemma quiet_execSET_DEBUG (s : MotState) : QuietArm s (execSET_DEBUG s) := by
  unfold QuietArm SteadyArm execSET_DEBUG emcmot_config_change
  split_ifs <;> simp

lemma quiet_execUNKNOWN (s : MotState) : QuietArm s (execUNKNOWN s) := by
  unfold QuietArm SteadyArm execUNKNOWN setCommandStatus
  simp

lemma steady_execFREE (s : MotState) :
    SteadyArm s (execFREE s) ∧ (execFREE s).command = s.command := by
  unfold SteadyArm execFREE; simp

lemma execFREE_latches (s : MotState) :
    (execFREE s).debug.coordinating = false ∧ (execFREE s).debug.teleoperating = false := by
  simp [execFREE]

lemma steady_execCOORD (env : KinEnv) (s : MotState) :
    SteadyArm s (execCOORD env s) ∧ (execCOORD env s).command = s.command := by
  unfold SteadyArm execCOORD; split_ifs <;> cases hA : s.debug.allHomed <;> simp [hA]

lemma execCOORD_teleoperating (env : KinEnv) (s : MotState) :
    (execCOORD env s).debug.teleoperating = false := by
  unfold execCOORD; split_ifs <;> cases hA : s.debug.allHomed <;> simp [hA]

lemma steady_execTELEOP (env : KinEnv) (s : MotState) :
    SteadyArm s (execTELEOP env s) ∧ (execTELEOP env s).command = s.command := by
  unfold SteadyArm execTELEOP; split_ifs <;> cases hA : s.debug.allHomed <;> simp [hA]

lemma execTELEOP_coordinating (env : KinEnv) (s : MotState) :
    (execTELEOP env s).debug.coordinating = s.debug.coordinating := by
  unfold execTELEOP; split_ifs <;> cases hA : s.debug.allHomed <;> simp [hA]

lemma steady_execDISABLE (env : KinEnv) (s : MotState) :
    SteadyArm s (execDISABLE env s) ∧ (execDISABLE env s).command = s.command := by
  unfold SteadyArm execDISABLE; split_ifs <;> simp

lemma execDISABLE_latches (env : KinEnv) (s : MotState) :
    ((execDISABLE env s).debug.coordinating = s.debug.coordinating ∧
     (execDISABLE env s).debug.teleoperating = s.debug.teleoperating) ∨
    ((execDISABLE env s).debug.coordinating = false ∧
     (execDISABLE env s).debug.teleoperating = false) := by
  unfold execDISABLE; split_ifs <;> simp

lemma steady_execENABLE (env : KinEnv) (s : MotState) :
    SteadyArm s (execENABLE env s) ∧ (execENABLE env s).command = s.command := by
  unfold SteadyArm execENABLE; split_ifs <;> simp

lemma execENABLE_latches (env : KinEnv) (s : MotState) :
    ((execENABLE env s).debug.coordinating = s.debug.coordinating ∧
     (execENABLE env s).debug.teleoperating = s.debug.teleoperating) ∨
    ((execENABLE env s).debug.coordinating = false ∧
     (execENABLE env s).debug.teleoperating = false) := by
  unfold execENABLE; split_ifs <;> simp

lemma steady_execSCALE (s : MotState) :
    SteadyArm s (execSCALE s) ∧
    (execSCALE s).debug.coordinating = s.debug.coordinating ∧
    (execSCALE s).debug.teleoperating = s.debug.teleoperating := by
  unfold SteadyArm execSCALE; split_ifs <;> simp

lemma dispatch_steady (env : KinEnv) (c : EmcmotCommandKind) (s : MotState) :
    SteadyArm s (dispatchCommand env c s) := by
  cases c with
  | ABORT => exact (quiet_execABORT s).1
  | FREE => exact (steady_execFREE s).1
  | COORD => exact (steady_execCOORD env s).1
  | TELEOP => exact (steady_execTELEOP env s).1
  | SET_NUM_AXES => exact (quiet_execSET_NUM_AXES s).1
  | SET_WORLD_HOME => exact (quiet_execSET_WORLD_HOME s).1
  | SET_JOINT_HOME => exact (quiet_execSET_JOINT_HOME s).1
  | SET_HOME_OFFSET => exact (quiet_execSET_HOME_OFFSET s).1
  | OVERRIDE_LIMITS => exact (quiet_execOVERRIDE_LIMITS s).1
  | SET_POSITION_LIMITS => exact (quiet_execSET_POSITION_LIMITS s).1
  | SET_MAX_FERROR => exact (quiet_execSET_MAX_FERROR s).1
  | SET_MIN_FERROR => exact (quiet_execSET_MIN_FERROR s).1
  | JOG_CONT => exact (quiet_execJOG_CONT env s).1
  | JOG_INCR => exact (quiet_execJOG_INCR env s).1
  | JOG_ABS => exact (quiet_execJOG_ABS env s).1
  | SET_TERM_COND => exact (quiet_execSET_TERM_COND s).1
  | SET_LINE => exact (quiet_execSET_LINE env s).1
  | SET_CIRCLE => exact (quiet_execSET_CIRCLE env s).1
  | SET_VEL => exact (quiet_execSET_VEL s).1
  | SET_VEL_LIMIT => exact (quiet_execSET_VEL_LIMIT s).1
  | SET_AXIS_VEL_LIMIT => exact (quiet_execSET_AXIS_VEL_LIMIT s).1
  | SET_HOMING_VEL => exact (quiet_execSET_HOMING_VEL s).1
  | SET_ACC => exact (quiet_execSET_ACC s).1
  | PAUSE => exact (quiet_execPAUSE s).1
  | RESUME => exact (quiet_execRESUME s).1
  | STEP => exact (quiet_execSTEP s).1
  | SCALE => exact (steady_execSCALE s).1
  | DISABLE => exact (steady_execDISABLE env s).1
  | ENABLE => exact (steady_execENABLE env s).1
  | ACTIVATE_AXIS => exact (quiet_execACTIVATE_AXIS s).1
  | DEACTIVATE_AXIS => exact (quiet_execDEACTIVATE_AXIS s).1
  | ENABLE_AMPLIFIER => exact (quiet_execENABLE_AMPLIFIER s).1
  | DISABLE_AMPLIFIER => exact (quiet_execDISABLE_AMPLIFIER s).1
  | OPEN_LOG => exact (quiet_execOPEN_LOG s).1
  | START_LOG => exact (quiet_execSTART_LOG env s).1
  | STOP_LOG => exact (quiet_execSTOP_LOG s).1
  | CLOSE_LOG => exact (quiet_execCLOSE_LOG s).1
  | HOME => exact (quiet_execHOME s).1
  | ENABLE_WATCHDOG => exact (quiet_execENABLE_WATCHDOG s).1
  | DISABLE_WATCHDOG => exact (quiet_execDISABLE_WATCHDOG s).1
  | CLEAR_PROBE_FLAGS => exact (quiet_execCLEAR_PROBE_FLAGS s).1
  | PROBE => exact (quiet_execPROBE env s).1
  | SET_TELEOP_VECTOR => exact (quiet_execSET_TELEOP_VECTOR env s).1
  | SET_DEBUG => exact (quiet_execSET_DEBUG s).1
  | OTHER => exact (quiet_execUNKNOWN s).1

lemma dispatch_command_eq (env : KinEnv) (c : EmcmotCommandKind) (s : MotState)
    (h : c ≠ EmcmotCommandKind.SCALE) :
    (dispatchCommand env c s).command = s.command := by
  cases c with
  | ABORT => exact (quiet_execABORT s).2.2.2
  | FREE => exact (steady_execFREE s).2
  | COORD => exact (steady_execCOORD env s).2
  | TELEOP => exact (steady_execTELEOP env s).2
  | SET_NUM_AXES => exact (quiet_execSET_NUM_AXES s).2.2.2
  | SET_WORLD_HOME => exact (quiet_execSET_WORLD_HOME s).2.2.2
  | SET_JOINT_HOME => exact (quiet_execSET_JOINT_HOME s).2.2.2
  | SET_HOME_OFFSET => exact (quiet_execSET_HOME_OFFSET s).2.2.2
  | OVERRIDE_LIMITS => exact (quiet_execOVERRIDE_LIMITS s).2.2.2
  | SET_POSITION_LIMITS => exact (quiet_execSET_POSITION_LIMITS s).2.2.2
  | SET_MAX_FERROR => exact (quiet_execSET_MAX_FERROR s).2.2.2
  | SET_MIN_FERROR => exact (quiet_execSET_MIN_FERROR s).2.2.2
  | JOG_CONT => exact (quiet_execJOG_CONT env s).2.2.2
  | JOG_INCR => exact (quiet_execJOG_INCR env s).2.2.2
  | JOG_ABS => exact (quiet_execJOG_ABS env s).2.2.2
  | SET_TERM_COND => exact (quiet_execSET_TERM_COND s).2.2.2
  | SET_LINE => exact (quiet_execSET_LINE env s).2.2.2
  | SET_CIRCLE => exact (quiet_execSET_CIRCLE env s).2.2.2
  | SET_VEL => exact (quiet_execSET_VEL s).2.2.2
  | SET_VEL_LIMIT => exact (quiet_execSET_VEL_LIMIT s).2.2.2
  | SET_AXIS_VEL_LIMIT => exact (quiet_execSET_AXIS_VEL_LIMIT s).2.2.2
  | SET_HOMING_VEL => exact (quiet_execSET_HOMING_VEL s).2.2.2
  | SET_ACC => exact (quiet_execSET_ACC s).2.2.2
  | PAUSE => exact (quiet_execPAUSE s).2.2.2
  | RESUME => exact (quiet_execRESUME s).2.2.2
  | STEP => exact (quiet_execSTEP s).2.2.2
  | SCALE => exact absurd rfl h
  | DISABLE => exact (steady_execDISABLE env s).2
  | ENABLE => exact (steady_execENABLE env s).2
  | ACTIVATE_AXIS => exact (quiet_execACTIVATE_AXIS s).2.2.2
  | DEACTIVATE_AXIS => exact (quiet_execDEACTIVATE_AXIS s).2.2.2
  | ENABLE_AMPLIFIER => exact (quiet_execENABLE_AMPLIFIER s).2.2.2
  | DISABLE_AMPLIFIER => exact (quiet_execDISABLE_AMPLIFIER s).2.2.2
  | OPEN_LOG => exact (quiet_execOPEN_LOG s).2.2.2
  | START_LOG => exact (quiet_execSTART_LOG env s).2.2.2
  | STOP_LOG => exact (quiet_execSTOP_LOG s).2.2.2
  | CLOSE_LOG => exact (quiet_execCLOSE_LOG s).2.2.2
  | HOME => exact (quiet_execHOME s).2.2.2
  | ENABLE_WATCHDOG => exact (quiet_execENABLE_WATCHDOG s).2.2.2
  | DISABLE_WATCHDOG => exact (quiet_execDISABLE_WATCHDOG s).2.2.2
  | CLEAR_PROBE_FLAGS => exact (quiet_execCLEAR_PROBE_FLAGS s).2.2.2
  | PROBE => exact (quiet_execPROBE env s).2.2.2
  | SET_TELEOP_VECTOR => exact (quiet_execSET_TELEOP_VECTOR env s).2.2.2
  | SET_DEBUG => exact (quiet_execSET_DEBUG s).2.2.2
  | OTHER => exact (quiet_execUNKNOWN s).2.2.2

lemma dispatch_latch_eq (env : KinEnv) (c : EmcmotCommandKind) (s : MotState)
    (h1 : c ≠ EmcmotCommandKind.FREE) (h2 : c ≠ EmcmotCommandKind.COORD)
    (h3 : c ≠ EmcmotCommandKind.TELEOP) (h4 : c ≠ EmcmotCommandKind.DISABLE)
    (h5 : c ≠ EmcmotCommandKind.ENABLE) :
    (dispatchCommand env c s).debug.coordinating = s.debug.coordinating ∧
    (dispatchCommand env c s).debug.teleoperating = s.debug.teleoperating := by
  cases c with
  | ABORT => exact ⟨(quiet_execABORT s).2.1, (quiet_execABORT s).2.2.1⟩
  | FREE => exact absurd rfl h1
  | COORD => exact absurd rfl h2
  | TELEOP => exact absurd rfl h3
  | SET_NUM_AXES => exact ⟨(quiet_execSET_NUM_AXES s).2.1, (quiet_execSET_NUM_AXES s).2.2.1⟩
  | SET_WORLD_HOME => exact ⟨(quiet_execSET_WORLD_HOME s).2.1, (quiet_execSET_WORLD_HOME s).2.2.1⟩
  | SET_JOINT_HOME => exact ⟨(quiet_execSET_JOINT_HOME s).2.1, (quiet_execSET_JOINT_HOME s).2.2.1⟩
  | SET_HOME_OFFSET => exact ⟨(quiet_execSET_HOME_OFFSET s).2.1, (quiet_execSET_HOME_OFFSET s).2.2.1⟩
  | OVERRIDE_LIMITS => exact ⟨(quiet_execOVERRIDE_LIMITS s).2.1, (quiet_execOVERRIDE_LIMITS s).2.2.1⟩
  | SET_POSITION_LIMITS => exact ⟨(quiet_execSET_POSITION_LIMITS s).2.1, (quiet_execSET_POSITION_LIMITS s).2.2.1⟩
  | SET_MAX_FERROR => exact ⟨(quiet_execSET_MAX_FERROR s).2.1, (quiet_execSET_MAX_FERROR s).2.2.1⟩
  | SET_MIN_FERROR => exact ⟨(quiet_execSET_MIN_FERROR s).2.1, (quiet_execSET_MIN_FERROR s).2.2.1⟩
  | JOG_CONT => exact ⟨(quiet_execJOG_CONT env s).2.1, (quiet_execJOG_CONT env s).2.2.1⟩
  | JOG_INCR => exact ⟨(quiet_execJOG_INCR env s).2.1, (quiet_execJOG_INCR env s).2.2.1⟩
  | JOG_ABS => exact ⟨(quiet_execJOG_ABS env s).2.1, (quiet_execJOG_ABS env s).2.2.1⟩
  | SET_TERM_COND => exact ⟨(quiet_execSET_TERM_COND s).2.1, (quiet_execSET_TERM_COND s).2.2.1⟩
  | SET_LINE => exact ⟨(quiet_execSET_LINE env s).2.1, (quiet_execSET_LINE env s).2.2.1⟩
  | SET_CIRCLE => exact ⟨(quiet_execSET_CIRCLE env s).2.1, (quiet_execSET_CIRCLE env s).2.2.1⟩
  | SET_VEL => exact ⟨(quiet_execSET_VEL s).2.1, (quiet_execSET_VEL s).2.2.1⟩
  | SET_VEL_LIMIT => exact ⟨(quiet_execSET_VEL_LIMIT s).2.1, (quiet_execSET_VEL_LIMIT s).2.2.1⟩
  | SET_AXIS_VEL_LIMIT => exact ⟨(quiet_execSET_AXIS_VEL_LIMIT s).2.1, (quiet_execSET_AXIS_VEL_LIMIT s).2.2.1⟩
  | SET_HOMING_VEL => exact ⟨(quiet_execSET_HOMING_VEL s).2.1, (quiet_execSET_HOMING_VEL s).2.2.1⟩
  | SET_ACC => exact ⟨(quiet_execSET_ACC s).2.1, (quiet_execSET_ACC s).2.2.1⟩
  | PAUSE => exact ⟨(quiet_execPAUSE s).2.1, (quiet_execPAUSE s).2.2.1⟩
  | RESUME => exact ⟨(quiet_execRESUME s).2.1, (quiet_execRESUME s).2.2.1⟩
  | STEP => exact ⟨(quiet_execSTEP s).2.1, (quiet_execSTEP s).2.2.1⟩
  | SCALE => exact ⟨(steady_execSCALE s).2.1, (steady_execSCALE s).2.2⟩
  | DISABLE => exact absurd rfl h4
  | ENABLE => exact absurd rfl h5
  | ACTIVATE_AXIS => exact ⟨(quiet_execACTIVATE_AXIS s).2.1, (quiet_execACTIVATE_AXIS s).2.2.1⟩
  | DEACTIVATE_AXIS => exact ⟨(quiet_execDEACTIVATE_AXIS s).2.1, (quiet_execDEACTIVATE_AXIS s).2.2.1⟩
  | ENABLE_AMPLIFIER => exact ⟨(quiet_execENABLE_AMPLIFIER s).2.1, (quiet_execENABLE_AMPLIFIER s).2.2.1⟩
  | DISABLE_AMPLIFIER => exact ⟨(quiet_execDISABLE_AMPLIFIER s).2.1, (quiet_execDISABLE_AMPLIFIER s).2.2.1⟩
  | OPEN_LOG => exact ⟨(quiet_execOPEN_LOG s).2.1, (quiet_execOPEN_LOG s).2.2.1⟩
  | START_LOG => exact ⟨(quiet_execSTART_LOG env s).2.1, (quiet_execSTART_LOG env s).2.2.1⟩
  | STOP_LOG => exact ⟨(quiet_execSTOP_LOG s).2.1, (quiet_execSTOP_LOG s).2.2.1⟩
  | CLOSE_LOG => exact ⟨(quiet_execCLOSE_LOG s).2.1, (quiet_execCLOSE_LOG s).2.2.1⟩
  | HOME => exact ⟨(quiet_execHOME s).2.1, (quiet_execHOME s).2.2.1⟩
  | ENABLE_WATCHDOG => exact ⟨(quiet_execENABLE_WATCHDOG s).2.1, (quiet_execENABLE_WATCHDOG s).2.2.1⟩
  | DISABLE_WATCHDOG => exact ⟨(quiet_execDISABLE_WATCHDOG s).2.1, (quiet_execDISABLE_WATCHDOG s).2.2.1⟩
  | CLEAR_PROBE_FLAGS => exact ⟨(quiet_execCLEAR_PROBE_FLAGS s).2.1, (quiet_execCLEAR_PROBE_FLAGS s).2.2.1⟩
  | PROBE => exact ⟨(quiet_execPROBE env s).2.1, (quiet_execPROBE env s).2.2.1⟩
  | SET_TELEOP_VECTOR => exact ⟨(quiet_execSET_TELEOP_VECTOR env s).2.1, (quiet_execSET_TELEOP_VECTOR env s).2.2.1⟩
  | SET_DEBUG => exact ⟨(quiet_execSET_DEBUG s).2.1, (quiet_execSET_DEBUG s).2.2.1⟩
  | OTHER => exact ⟨(quiet_execUNKNOWN s).2.1, (quiet_execUNKNOWN s).2.2.1⟩

@[simp] lemma beginWrite_command (s : MotState) : (beginWrite s).command = s.command := by
  simp only [beginWrite]; split_ifs <;> rfl

@[simp] lemma beginWrite_config (s : MotState) : (beginWrite s).config = s.config := by
  simp only [beginWrite]; split_ifs <;> rfl

@[simp] lemma beginWrite_globals (s : MotState) : (beginWrite s).globals = s.globals := by
  simp only [beginWrite]; split_ifs <;> rfl

@[simp] lemma beginWrite_status_head (s : MotState) :
    (beginWrite s).status.head = s.status.head + 1 := by
  simp only [beginWrite]; split_ifs <;> rfl

@[simp] lemma beginWrite_status_tail (s : MotState) :
    (beginWrite s).status.tail = s.status.tail := by
  simp only [beginWrite]; split_ifs <;> rfl

@[simp] lemma beginWrite_status_motionFlag (s : MotState) :
    (beginWrite s).status.motionFlag = s.status.motionFlag := by
  simp only [beginWrite]; split_ifs <;> rfl

@[simp] lemma beginWrite_status_axisFlag (s : MotState) :
    (beginWrite s).status.axisFlag = s.status.axisFlag := by
  simp only [beginWrite]; split_ifs <;> rfl

@[simp] lemma beginWrite_status_overrideLimits (s : MotState) :
    (beginWrite s).status.overrideLimits = s.status.overrideLimits := by
  simp only [beginWrite]; split_ifs <;> rfl

@[simp] lemma beginWrite_status_commandStatus (s : MotState) :
    (beginWrite s).status.commandStatus = EmcmotCommandStatus.OK := by
  simp only [beginWrite]; split_ifs <;> rfl

@[simp] lemma beginWrite_debug_head (s : MotState) :
    (beginWrite s).debug.head = s.debug.head + 1 := by
  simp only [beginWrite]; split_ifs <;> rfl

@[simp] lemma beginWrite_debug_tail (s : MotState) :
    (beginWrite s).debug.tail = s.debug.tail := by
  simp only [beginWrite]; split_ifs <;> rfl

@[simp] lemma beginWrite_debug_coordinating (s : MotState) :
    (beginWrite s).debug.coordinating = s.debug.coordinating := by
  simp only [beginWrite]; split_ifs <;> rfl

@[simp] lemma beginWrite_debug_teleoperating (s : MotState) :
    (beginWrite s).debug.teleoperating = s.debug.teleoperating := by
  simp only [beginWrite]; split_ifs <;> rfl

@[simp] lemma beginWrite_debug_queue (s : MotState) :
    (beginWrite s).debug.queue = s.debug.queue := by
  simp only [beginWrite]; split_ifs <;> rfl

@[simp] lemma beginWrite_debug_freeAxis (s : MotState) :
    (beginWrite s).debug.freeAxis = s.debug.freeAxis := by
  simp only [beginWrite]; split_ifs <;> rfl

@[simp] lemma beginWrite_debug_freePose (s : MotState) :
    (beginWrite s).debug.freePose = s.debug.freePose := by
  simp only [beginWrite]; split_ifs <;> rfl

@[simp] lemma beginWrite_debug_jointPos (s : MotState) :
    (beginWrite s).debug.jointPos = s.debug.jointPos := by
  simp only [beginWrite]; split_ifs <;> rfl

@[simp] lemma beginWrite_debug_allHomed (s : MotState) :
    (beginWrite s).debug.allHomed = s.debug.allHomed := by
  simp only [beginWrite]; split_ifs <;> rfl

@[simp] lemma beginWrite_debug_teleop_data (s : MotState) :
    (beginWrite s).debug.teleop_data = s.debug.teleop_data := by
  simp only [beginWrite]; split_ifs <;> rfl

@[simp] lemma publishRecords_command (s : MotState) :
    (publishRecords s).command = s.command := rfl

@[simp] lemma publishRecords_globals (s : MotState) :
    (publishRecords s).globals = s.globals := rfl

@[simp] lemma publishRecords_status_head (s : MotState) :
    (publishRecords s).status.head = s.status.head := rfl

@[simp] lemma publishRecords_status_tail (s : MotState) :
    (publishRecords s).status.tail = s.status.head := rfl

@[simp] lemma publishRecords_config_head (s : MotState) :
    (publishRecords s).config.head = s.config.head := rfl

@[simp] lemma publishRecords_config_tail (s : MotState) :
    (publishRecords s).config.tail = s.config.head := rfl

@[simp] lemma publishRecords_config_numAxes (s : MotState) :
    (publishRecords s).config.numAxes = s.config.numAxes := rfl

@[simp] lemma publishRecords_config_maxFerror (s : MotState) :
    (publishRecords s).config.maxFerror = s.config.maxFerror := rfl

@[simp] lemma publishRecords_debug_head (s : MotState) :
    (publishRecords s).debug.head = s.debug.head := rfl

@[simp] lemma publishRecords_debug_tail (s : MotState) :
    (publishRecords s).debug.tail = s.debug.head := rfl

@[simp] lemma publishRecords_debug_coordinating (s : MotState) :
    (publishRecords s).debug.coordinating = s.debug.coordinating := rfl

@[simp] lemma publishRecords_debug_teleoperating (s : MotState) :
    (publishRecords s).debug.teleoperating = s.debug.teleoperating := rfl

@[simp] lemma publishRecords_debug_queue (s : MotState) :
    (publishRecords s).debug.queue = s.debug.queue := rfl

@[simp] lemma publishRecords_debug_freeAxis (s : MotState) :
    (publishRecords s).debug.freeAxis = s.debug.freeAxis := rfl

@[simp] lemma publishRecords_debug_freePose (s : MotState) :
    (publishRecords s).debug.freePose = s.debug.freePose := rfl

@[simp] lemma publishRecords_debug_allHomed (s : MotState) :
    (publishRecords s).debug.allHomed = s.debug.allHomed := rfl

@[simp] lemma publishRecords_debug_teleop_data (s : MotState) :
    (publishRecords s).debug.teleop_data = s.debug.teleop_data := rfl

@[simp] lemma publishRecords_status_commandStatus (s : MotState) :
    (publishRecords s).status.commandStatus = s.status.commandStatus := rfl

@[simp] lemma publishRecords_status_motionFlag (s : MotState) :
    (publishRecords s).status.motionFlag = s.status.motionFlag := rfl

@[simp] lemma publishRecords_status_axisFlag (s : MotState) :
    (publishRecords s).status.axisFlag = s.status.axisFlag := rfl

/-- When the command record is consistent and carries a fresh sequence
number, the handler runs the begin-write bracket, the switch and the
publish bracket. -/
lemma handler_run (env : KinEnv) (s : MotState)
    (h1 : s.command.head = s.command.tail)
    (h2 : s.command.commandNum ≠ s.status.commandNumEcho) :
    emcmotCommandHandler env s =
      publishRecords (dispatchCommand env s.command.command (beginWrite s)) := by
  unfold emcmotCommandHandler
  rw [if_neg (not_not_intro h1), if_neg h2]

/-- checkLimits succeeds exactly when no active axis has a limit flag set. -/
lemma checkLimits_iff (s : MotState) : checkLimits s = true ↔
    ∀ ax : Fin maxAxis, (s.status.axisFlag ax).activeFlag = true →
      (s.status.axisFlag ax).pslFlag = false ∧ (s.status.axisFlag ax).nslFlag = false ∧
      (s.status.axisFlag ax).phlFlag = false ∧ (s.status.axisFlag ax).nhlFlag = false := by
  unfold checkLimits
  rw [List.all_eq_true]
  constructor
  · intro h ax hact
    have hh := h ax (List.mem_finRange ax)
    simp only [hact, Bool.not_true, Bool.false_or, Bool.and_eq_true,
      Bool.not_eq_true'] at hh
    tauto
  · intro h ax _
    by_cases hact : (s.status.axisFlag ax).activeFlag = true
    · have hh := h ax hact
      simp [hact, hh.1, hh.2.1, hh.2.2.1, hh.2.2.2]
    · simp [Bool.of_not_eq_true hact]

/-- inRange succeeds exactly when the inverse kinematics of the pose lies
within the travel limits of every active axis. -/
lemma inRange_iff (env : KinEnv) (s : MotState) (pos : EmcPose) :
    inRange env s pos = true ↔
    ∀ ax : Fin maxAxis, (s.status.axisFlag ax).activeFlag = true →
      s.config.minLimit ax ≤ env.kinematicsInverse pos ax ∧
      env.kinematicsInverse pos ax ≤ s.config.maxLimit ax := by
  unfold inRange
  rw [List.all_eq_true]
  constructor
  · intro h ax hact
    have hh := h ax (List.mem_finRange ax)
    simp only [hact, Bool.not_true, Bool.false_or, Bool.not_eq_true',
      decide_eq_false_iff_not, not_or, not_lt] at hh
    exact ⟨hh.2, hh.1⟩
  · intro h ax _
    by_cases hact : (s.status.axisFlag ax).activeFlag = true
    · have hh := h ax hact
      simp only [hact, Bool.not_true, Bool.false_or, Bool.not_eq_true',
        decide_eq_false_iff_not, not_or, not_lt]
      exact ⟨hh.2, hh.1⟩
    · simp [Bool.of_not_eq_true hact]

@[simp] lemma config_change_command (s : MotState) :
    (emcmot_config_change s).command = s.command := by
  unfold emcmot_config_change; split_ifs <;> rfl

@[simp] lemma config_change_status (s : MotState) :
    (emcmot_config_change s).status = s.status := by
  unfold emcmot_config_change; split_ifs <;> rfl

@[simp] lemma config_change_debug (s : MotState) :
    (emcmot_config_change s).debug = s.debug := by
  unfold emcmot_config_change; split_ifs <;> rfl

@[simp] lemma config_change_globals (s : MotState) :
    (emcmot_config_change s).globals = s.globals := by
  unfold emcmot_config_change; split_ifs <;> rfl

@[simp] lemma config_change_config_tail (s : MotState) :
    (emcmot_config_change s).config.tail = s.config.tail := by
  unfold emcmot_config_change; split_ifs <;> rfl

@[simp] lemma config_change_config_maxFerror (s : MotState) :
    (emcmot_config_change s).config.maxFerror = s.config.maxFerror := by
  unfold emcmot_config_change; split_ifs <;> rfl

@[simp] lemma config_change_config_minLimit (s : MotState) :
    (emcmot_config_change s).config.minLimit = s.config.minLimit := by
  unfold emcmot_config_change; split_ifs <;> rfl

@[simp] lemma config_change_config_maxLimit (s : MotState) :
    (emcmot_config_change s).config.maxLimit = s.config.maxLimit := by
  unfold emcmot_config_change; split_ifs <;> rfl

@[simp] lemma config_change_config_numAxes (s : MotState) :
    (emcmot_config_change s).config.numAxes = s.config.numAxes := by
  unfold emcmot_config_change; split_ifs <;> rfl

@[simp] lemma inRange_beginWrite (env : KinEnv) (s : MotState) (pos : EmcPose) :
    inRange env (beginWrite s) pos = inRange env s pos := by
  unfold inRange; simp

@[simp] lemma checkLimits_beginWrite (s : MotState) :
    checkLimits (beginWrite s) = checkLimits s := by
  unfold checkLimits; simp

@[simp] lemma checkJog_beginWrite (s : MotState) (axis : ℤ) (vel : ℚ) :
    checkJog (beginWrite s) axis vel = checkJog s axis vel := by
  unfold checkJog; simp

@[simp] lemma jogTargetCont_beginWrite (s : MotState) (ax : Fin maxAxis) :
    jogTargetCont (beginWrite s) ax = jogTargetCont s ax := by
  unfold jogTargetCont axrange; simp

/-- C10: When the kinematics type is INVERSE_ONLY, processing an ENABLE
command raises the enabling latch and also clears both the coordinating
and teleoperating mode latches. -/
theorem C10_enable_clears_mode_latches (env : KinEnv) (s : MotState)
    (h1 : s.command.head = s.command.tail)
    (h2 : s.command.commandNum ≠ s.status.commandNumEcho)
    (hc : s.command.command = EmcmotCommandKind.ENABLE)
    (hk : env.kinType = KINEMATICS_TYPE.INVERSE_ONLY) :
    (emcmotCommandHandler env s).debug.enabling = true ∧
    (emcmotCommandHandler env s).debug.coordinating = false ∧
    (emcmotCommandHandler env s).debug.teleoperating = false := by
  rw [handler_run env s h1 h2, hc]
  simp [dispatchCommand, execENABLE, hk, publishRecords]

/-- Concrete run of C10: ENABLE on an inverse-only machine with the
coordinating latch set drops both mode latches. -/
def c10state : MotState :=
  {baseState with
    command := {commandInit with command := EmcmotCommandKind.ENABLE},
    debug := {debugInit with coordinating := true}}

theorem C10_enable_clears_mode_latches_witness :
    (c10state.command.head = c10state.command.tail ∧
     c10state.command.commandNum ≠ c10state.status.commandNumEcho ∧
     c10state.command.command = EmcmotCommandKind.ENABLE ∧
     envInvOnly.kinType = KINEMATICS_TYPE.INVERSE_ONLY) ∧
    ((emcmotCommandHandler envInvOnly c10state).debug.enabling = true ∧
     (emcmotCommandHandler envInvOnly c10state).debug.coordinating = false ∧
     (emcmotCommandHandler envInvOnly c10state).debug.teleoperating = false) :=
  ⟨⟨by decide, by decide, by decide, by decide⟩,
   C10_enable_clears_mode_latches envInvOnly c10state (by decide) (by decide)
     (by decide) (by decide)⟩

/-- C9: SET_MAX_FERROR leaves every per-axis maxFerror configuration entry
unchanged when the requested value is negative or the axis index is out of
range, and writes exactly the indexed entry when the value is nonnegative
and the axis is in range. -/
theorem C9_set_max_ferror_guard (env : KinEnv) (s : MotState)
    (h1 : s.command.head = s.command.tail)
    (h2 : s.command.commandNum ≠ s.status.commandNumEcho)
    (hc : s.command.command = EmcmotCommandKind.SET_MAX_FERROR) :
    (s.command.maxFerror < 0 →
      ∀ i : Fin maxAxis,
        (emcmotCommandHandler env s).config.maxFerror i = s.config.maxFerror i) ∧
    (axisIdx s.command.axis = none →
      ∀ i : Fin maxAxis,
        (emcmotCommandHandler env s).config.maxFerror i = s.config.maxFerror i) ∧
    (∀ ax : Fin maxAxis, axisIdx s.command.axis = some ax → 0 ≤ s.command.maxFerror →
      (emcmotCommandHandler env s).config.maxFerror =
        Function.update s.config.maxFerror ax s.command.maxFerror) := by
  rw [handler_run env s h1 h2, hc]
  simp only [dispatchCommand]
  refine ⟨?_, ?_, ?_⟩
  · intro hneg i
    cases h : axisIdx s.command.axis with
    | none => simp [execSET_MAX_FERROR, h]
    | some ax => simp [execSET_MAX_FERROR, h, hneg]
  · intro h i
    simp [execSET_MAX_FERROR, h]
  · intro ax h hpos
    simp [execSET_MAX_FERROR, h, not_lt.mpr hpos]

/-- Concrete run of C9: SET_MAX_FERROR with value -1/10 on axis 2 leaves
maxFerror unchanged on every axis. -/
def c9state : MotState :=
  {baseState with
    command := {commandInit with command := EmcmotCommandKind.SET_MAX_FERROR,
                                 axis := 2, maxFerror := -1/10}}

theorem C9_set_max_ferror_guard_witness :
    (c9state.command.head = c9state.command.tail ∧
     c9state.command.commandNum ≠ c9state.status.commandNumEcho ∧
     c9state.command.command = EmcmotCommandKind.SET_MAX_FERROR ∧
     c9state.command.maxFerror < 0) ∧
    (∀ i : Fin maxAxis,
      (emcmotCommandHandler envIdentity c9state).config.maxFerror i =
        c9state.config.maxFerror i) :=
  ⟨⟨by decide, by decide, by decide, by decide⟩,
   (C9_set_max_ferror_guard envIdentity c9state (by decide) (by decide)
     (by decide)).1 (by decide)⟩

@[simp] lemma setFreePoseX_command (s : MotState) (v : ℚ) :
    (setFreePoseX s v).command = s.command := rfl

@[simp] lemma setFreePoseX_status (s : MotState) (v : ℚ) :
    (setFreePoseX s v).status = s.status := rfl

@[simp] lemma setFreePoseX_config (s : MotState) (v : ℚ) :
    (setFreePoseX s v).config = s.config := rfl

@[simp] lemma setFreePoseX_globals (s : MotState) (v : ℚ) :
    (setFreePoseX s v).globals = s.globals := rfl

@[simp] lemma setFreePoseX_debug_freePose (s : MotState) (v : ℚ) :
    (setFreePoseX s v).debug.freePose =
      {s.debug.freePose with tran := {s.debug.freePose.tran with x := v}} := rfl

@[simp] lemma setFreePoseX_debug_freeAxis (s : MotState) (v : ℚ) :
    (setFreePoseX s v).debug.freeAxis = s.debug.freeAxis := rfl

@[simp] lemma setFreePoseX_debug_allHomed (s : MotState) (v : ℚ) :
    (setFreePoseX s v).debug.allHomed = s.debug.allHomed := rfl

@[simp] lemma pushFreeLine_command (s : MotState) (ax : Fin maxAxis) (v : ℚ) :
    (pushFreeLine s ax v).command = s.command := rfl

@[simp] lemma pushFreeLine_status (s : MotState) (ax : Fin maxAxis) (v : ℚ) :
    (pushFreeLine s ax v).status = s.status := rfl

@[simp] lemma pushFreeLine_config (s : MotState) (ax : Fin maxAxis) (v : ℚ) :
    (pushFreeLine s ax v).config = s.config := rfl

@[simp] lemma pushFreeLine_globals (s : MotState) (ax : Fin maxAxis) (v : ℚ) :
    (pushFreeLine s ax v).globals = s.globals := rfl

@[simp] lemma pushFreeLine_debug_freePose (s : MotState) (ax : Fin maxAxis) (v : ℚ) :
    (pushFreeLine s ax v).debug.freePose = s.debug.freePose := rfl

@[simp] lemma pushFreeLine_debug_allHomed (s : MotState) (ax : Fin maxAxis) (v : ℚ) :
    (pushFreeLine s ax v).debug.allHomed = s.debug.allHomed := rfl

@[simp] lemma pushFreeLine_debug_freeAxis_same (s : MotState) (ax : Fin maxAxis) (v : ℚ) :
    (pushFreeLine s ax v).debug.freeAxis ax =
      tpAddLineIgn (tpSetVmax (s.debug.freeAxis ax) v) s.debug.freePose := by
  simp [pushFreeLine]

@[simp] lemma setAxisFlags_command (s : MotState) (ax : Fin maxAxis) (f : AxisFlags) :
    (setAxisFlags s ax f).command = s.command := rfl

@[simp] lemma setAxisFlags_config (s : MotState) (ax : Fin maxAxis) (f : AxisFlags) :
    (setAxisFlags s ax f).config = s.config := rfl

@[simp] lemma setAxisFlags_globals (s : MotState) (ax : Fin maxAxis) (f : AxisFlags) :
    (setAxisFlags s ax f).globals = s.globals := rfl

@[simp] lemma setAxisFlags_debug (s : MotState) (ax : Fin maxAxis) (f : AxisFlags) :
    (setAxisFlags s ax f).debug = s.debug := rfl

@[simp] lemma clearHomes_command (env : KinEnv) (s : MotState) (ax : Fin maxAxis) :
    (clearHomes env s ax).command = s.command := by
  unfold clearHomes; split_ifs <;> rfl

@[simp] lemma clearHomes_config (env : KinEnv) (s : MotState) (ax : Fin maxAxis) :
    (clearHomes env s ax).config = s.config := by
  unfold clearHomes; split_ifs <;> rfl

@[simp] lemma clearHomes_globals (env : KinEnv) (s : MotState) (ax : Fin maxAxis) :
    (clearHomes env s ax).globals = s.globals := by
  unfold clearHomes; split_ifs <;> rfl

@[simp] lemma clearHomes_debug_freePose (env : KinEnv) (s : MotState) (ax : Fin maxAxis) :
    (clearHomes env s ax).debug.freePose = s.debug.freePose := by
  unfold clearHomes; split_ifs <;> rfl

@[simp] lemma clearHomes_debug_freeAxis (env : KinEnv) (s : MotState) (ax : Fin maxAxis) :
    (clearHomes env s ax).debug.freeAxis = s.debug.freeAxis := by
  unfold clearHomes; split_ifs <;> rfl

@[simp] lemma clearHomes_debug_allHomed (env : KinEnv) (s : MotState) (ax : Fin maxAxis) :
    (clearHomes env s ax).debug.allHomed = false := by
  unfold clearHomes; split_ifs <;> rfl

/-- On an inverse-only machine clearHomes drops the jogged axis' HOMED
flag, and with the rehomeAll latch set it drops every axis' HOMED flag. -/
lemma clearHomes_homed_spec (env : KinEnv) (s : MotState) (ax : Fin maxAxis)
    (hk : env.kinType = KINEMATICS_TYPE.INVERSE_ONLY) :
    ((clearHomes env s ax).status.axisFlag ax).homedFlag = false ∧
    (s.globals.rehomeAll = true →
      ∀ i : Fin maxAxis, ((clearHomes env s ax).status.axisFlag i).homedFlag = false) := by
  unfold clearHomes
  rw [if_pos hk]
  by_cases hr : s.globals.rehomeAll = true
  · rw [if_pos hr]; exact ⟨rfl, fun _ i => rfl⟩
  · rw [if_neg hr]
    refine ⟨by simp, fun hr2 => absurd hr2 hr⟩

@[simp] lemma jogTargetIncr_beginWrite (s : MotState) (ax : Fin maxAxis) :
    jogTargetIncr (beginWrite s) ax = jogTargetIncr s ax := by
  unfold jogTargetIncr; simp

@[simp] lemma jogTargetAbs_beginWrite (s : MotState) (ax : Fin maxAxis) :
    jogTargetAbs (beginWrite s) ax = jogTargetAbs s ax := by
  unfold jogTargetAbs; simp

/-- With a valid axis and all four guards passing, the JOG_CONT arm is the
target write, the queue push and the home invalidation. -/
lemma execJOG_CONT_success (env : KinEnv) (s : MotState) (ax : Fin maxAxis)
    (hax : axisIdx s.command.axis = some ax)
    (hcoord : s.status.motionFlag.coordFlag = false)
    (hinpos : s.status.motionFlag.inposFlag = true)
    (hen : s.status.motionFlag.enableFlag = true)
    (hjog : checkJog s s.command.axis s.command.vel = true) :
    execJOG_CONT env (beginWrite s) =
      clearHomes env
        (setAxisError
          (pushFreeLine (setFreePoseX (beginWrite s) (jogTargetCont s ax)) ax
            |s.command.vel|) ax false) ax := by
  unfold execJOG_CONT
  simp [hax, hcoord, hinpos, hen, hjog]

/-- With a valid axis and the guards passing, the JOG_INCR arm reduces the
same way. -/
lemma execJOG_INCR_success (env : KinEnv) (s : MotState) (ax : Fin maxAxis)
    (hax : axisIdx s.command.axis = some ax)
    (hcoord : s.status.motionFlag.coordFlag = false)
    (hinpos : s.status.motionFlag.inposFlag = true)
    (hen : s.status.motionFlag.enableFlag = true)
    (hjog : checkJog s s.command.axis s.command.vel = true) :
    execJOG_INCR env (beginWrite s) =
      clearHomes env
        (setAxisError
          (pushFreeLine (setFreePoseX (beginWrite s) (jogTargetIncr s ax)) ax
            |s.command.vel|) ax false) ax := by
  unfold execJOG_INCR
  simp [hax, hcoord, hinpos, hen, hjog]

/-- With a valid axis and the guards passing, the JOG_ABS arm reduces the
same way. -/
lemma execJOG_ABS_success (env : KinEnv) (s : MotState) (ax : Fin maxAxis)
    (hax : axisIdx s.command.axis = some ax)
    (hcoord : s.status.motionFlag.coordFlag = false)
    (hinpos : s.status.motionFlag.inposFlag = true)
    (hen : s.status.motionFlag.enableFlag = true)
    (hjog : checkJog s s.command.axis s.command.vel = true) :
    execJOG_ABS env (beginWrite s) =
      clearHomes env
        (setAxisError
          (pushFreeLine (setFreePoseX (beginWrite s) (jogTargetAbs s ax)) ax
            |s.command.vel|) ax false) ax := by
  unfold execJOG_ABS
  simp [hax, hcoord, hinpos, hen, hjog]

/-- C7: For a JOG_CONT that passes the axis, mode, in-position, enable and
jog-permission checks, the target handed to the joint's free queue is the
max soft limit (homed, vel positive), the min soft limit (homed, vel
negative), or the current joint position plus or minus AXRANGE (unhomed),
and the segment pushed to the free queue carries exactly that target. -/
theorem C7_jog_cont_target (env : KinEnv) (s : MotState) (ax : Fin maxAxis)
    (h1 : s.command.head = s.command.tail)
    (h2 : s.command.commandNum ≠ s.status.commandNumEcho)
    (hc : s.command.command = EmcmotCommandKind.JOG_CONT)
    (hax : axisIdx s.command.axis = some ax)
    (hcoord : s.status.motionFlag.coordFlag = false)
    (hinpos : s.status.motionFlag.inposFlag = true)
    (hen : s.status.motionFlag.enableFlag = true)
    (hjog : checkJog s s.command.axis s.command.vel = true) :
    ((s.status.axisFlag ax).homedFlag = true → 0 < s.command.vel →
      (emcmotCommandHandler env s).debug.freePose.tran.x = s.config.maxLimit ax) ∧
    ((s.status.axisFlag ax).homedFlag = false → 0 < s.command.vel →
      (emcmotCommandHandler env s).debug.freePose.tran.x =
        s.debug.jointPos ax + (s.config.maxLimit ax - s.config.minLimit ax)) ∧
    ((s.status.axisFlag ax).homedFlag = true → s.command.vel < 0 →
      (emcmotCommandHandler env s).debug.freePose.tran.x = s.config.minLimit ax) ∧
    ((s.status.axisFlag ax).homedFlag = false → s.command.vel < 0 →
      (emcmotCommandHandler env s).debug.freePose.tran.x =
        s.debug.jointPos ax - (s.config.maxLimit ax - s.config.minLimit ax)) ∧
    ((s.debug.freeAxis ax).full = false →
      ((emcmotCommandHandler env s).debug.freeAxis ax).segments =
        (s.debug.freeAxis ax).segments ++
          [TpSegment.line {s.debug.freePose with
            tran := {s.debug.freePose.tran with x := jogTargetCont s ax}}]) := by
  rw [handler_run env s h1 h2, hc]
  simp only [dispatchCommand]
  rw [execJOG_CONT_success env s ax hax hcoord hinpos hen hjog]
  refine ⟨?_, ?_, ?_, ?_, ?_⟩
  · intro hh hv
    simp [setAxisError, jogTargetCont, hh, hv]
  · intro hh hv
    simp [setAxisError, jogTargetCont, hh, hv, axrange]
  · intro hh hv
    have hv2 : ¬(s.command.vel > 0) := lt_asymm hv
    simp [setAxisError, jogTargetCont, hh, hv2]
  · intro hh hv
    have hv2 : ¬(s.command.vel > 0) := lt_asymm hv
    simp [setAxisError, jogTargetCont, hh, hv2, axrange]
  · intro hfull
    simp [setAxisError, tpAddLineIgn, tpAddLine, tpSetVmax, hfull]

/-- Concrete run of C7: spec scenario 1: enabled, free mode, JOG_CONT on
axis 0 with vel 1 while unhomed, travel limits -10 and 10, joint at 0. -/
def c7state : MotState :=
  {baseState with
    command := {commandInit with command := EmcmotCommandKind.JOG_CONT, axis := 0, vel := 1},
    status := {statusInit with motionFlag := {motionFlagsInit with enableFlag := true}}}

theorem C7_jog_cont_target_witness :
    (c7state.command.head = c7state.command.tail ∧
     c7state.command.commandNum ≠ c7state.status.commandNumEcho ∧
     c7state.command.command = EmcmotCommandKind.JOG_CONT ∧
     axisIdx c7state.command.axis = some 0 ∧
     c7state.status.motionFlag.coordFlag = false ∧
     c7state.status.motionFlag.inposFlag = true ∧
     c7state.status.motionFlag.enableFlag = true ∧
     checkJog c7state c7state.command.axis c7state.command.vel = true) ∧
    (((c7state.status.axisFlag 0).homedFlag = true → 0 < c7state.command.vel →
       (emcmotCommandHandler envIdentity c7state).debug.freePose.tran.x =
         c7state.config.maxLimit 0) ∧
     ((c7state.status.axisFlag 0).homedFlag = false → 0 < c7state.command.vel →
       (emcmotCommandHandler envIdentity c7state).debug.freePose.tran.x =
         c7state.debug.jointPos 0 + (c7state.config.maxLimit 0 - c7state.config.minLimit 0)) ∧
     ((c7state.status.axisFlag 0).homedFlag = true → c7state.command.vel < 0 →
       (emcmotCommandHandler envIdentity c7state).debug.freePose.tran.x =
         c7state.config.minLimit 0) ∧
     ((c7state.status.axisFlag 0).homedFlag = false → c7state.command.vel < 0 →
       (emcmotCommandHandler envIdentity c7state).debug.freePose.tran.x =
         c7state.debug.jointPos 0 - (c7state.config.maxLimit 0 - c7state.config.minLimit 0)) ∧
     ((c7state.debug.freeAxis 0).full = false →
       ((emcmotCommandHandler envIdentity c7state).debug.freeAxis 0).segments =
         (c7state.debug.freeAxis 0).segments ++
           [TpSegment.line {c7state.debug.freePose with
             tran := {c7state.debug.freePose.tran with x := jogTargetCont c7state 0}}])) :=
  ⟨⟨by decide, by decide, by decide, by decide, by decide, by decide, by decide, by decide⟩,
   C7_jog_cont_target envIdentity c7state 0 (by decide) (by decide) (by decide) (by decide)
     (by decide) (by decide) (by decide) (by decide)⟩

/-- C8: After a successful JOG_CONT, JOG_INCR or JOG_ABS on an inverse-only
machine the jogged axis has HOMED cleared, every axis has HOMED cleared
when the rehomeAll latch was set, and the allHomed cache is cleared. -/
theorem C8_jog_clears_homes (env : KinEnv) (s : MotState) (ax : Fin maxAxis)
    (h1 : s.command.head = s.command.tail)
    (h2 : s.command.commandNum ≠ s.status.commandNumEcho)
    (hc : s.command.command = EmcmotCommandKind.JOG_CONT ∨
          s.command.command = EmcmotCommandKind.JOG_INCR ∨
          s.command.command = EmcmotCommandKind.JOG_ABS)
    (hax : axisIdx s.command.axis = some ax)
    (hcoord : s.status.motionFlag.coordFlag = false)
    (hinpos : s.status.motionFlag.inposFlag = true)
    (hen : s.status.motionFlag.enableFlag = true)
    (hjog : checkJog s s.command.axis s.command.vel = true)
    (hk : env.kinType = KINEMATICS_TYPE.INVERSE_ONLY) :
    ((emcmotCommandHandler env s).status.axisFlag ax).homedFlag = false ∧
    (s.globals.rehomeAll = true →
      ∀ i : Fin maxAxis,
        ((emcmotCommandHandler env s).status.axisFlag i).homedFlag = false) ∧
    (emcmotCommandHandler env s).debug.allHomed = false := by
  rcases hc with hcc | hcc | hcc <;>
    rw [handler_run env s h1 h2, hcc] <;>
    simp only [dispatchCommand] <;>
    [rw [execJOG_CONT_success env s ax hax hcoord hinpos hen hjog];
     rw [execJOG_INCR_success env s ax hax hcoord hinpos hen hjog];
     rw [execJOG_ABS_success env s ax hax hcoord hinpos hen hjog]] <;>
    [have hspec := clearHomes_homed_spec env
       (setAxisError (pushFreeLine (setFreePoseX (beginWrite s) (jogTargetCont s ax)) ax
         |s.command.vel|) ax false) ax hk;
     have hspec := clearHomes_homed_spec env
       (setAxisError (pushFreeLine (setFreePoseX (beginWrite s) (jogTargetIncr s ax)) ax
         |s.command.vel|) ax false) ax hk;
     have hspec := clearHomes_homed_spec env
       (setAxisError (pushFreeLine (setFreePoseX (beginWrite s) (jogTargetAbs s ax)) ax
         |s.command.vel|) ax false) ax hk] <;>
    · refine ⟨?_, ?_, ?_⟩
      · simpa using hspec.1
      · intro hr i
        have hr2 := hspec.2 (by simp [setAxisError, hr])
        simpa using hr2 i
      · simp

/-- Concrete run of C8: on an inverse-only machine with rehomeAll latched,
JOG_CONT on axis 0 clears HOMED on every axis and clears allHomed. -/
def c8state : MotState :=
  {baseState with
    command := {commandInit with command := EmcmotCommandKind.JOG_CONT, axis := 0, vel := 1},
    status := {statusInit with
      motionFlag := {motionFlagsInit with enableFlag := true},
      axisFlag := fun _ => {axisFlagsInit with homedFlag := true}},
    debug := {debugInit with allHomed := true},
    globals := {globalsInit with rehomeAll := true}}

theorem C8_jog_clears_homes_witness :
    (c8state.command.head = c8state.command.tail ∧
     c8state.command.commandNum ≠ c8state.status.commandNumEcho ∧
     c8state.command.command = EmcmotCommandKind.JOG_CONT ∧
     axisIdx c8state.command.axis = some 0 ∧
     c8state.status.motionFlag.coordFlag = false ∧
     c8state.status.motionFlag.inposFlag = true ∧
     c8state.status.motionFlag.enableFlag = true ∧
     checkJog c8state c8state.command.axis c8state.command.vel = true ∧
     envInvOnly.kinType = KINEMATICS_TYPE.INVERSE_ONLY) ∧
    (((emcmotCommandHandler envInvOnly c8state).status.axisFlag 0).homedFlag = false ∧
     (c8state.globals.rehomeAll = true →
       ∀ i : Fin maxAxis,
         ((emcmotCommandHandler envInvOnly c8state).status.axisFlag i).homedFlag = false) ∧
     (emcmotCommandHandler envInvOnly c8state).debug.allHomed = false) :=
  ⟨⟨by decide, by decide, by decide, by decide, by decide, by decide, by decide, by decide,
    by decide⟩,
   C8_jog_clears_homes envInvOnly c8state 0 (by decide) (by decide) (Or.inl (by decide))
     (by decide) (by decide) (by decide) (by decide) (by decide) (by decide)⟩

/-- A torn command record only bumps the split counter. -/
lemma handler_split (env : KinEnv) (s : MotState) (h : s.command.head ≠ s.command.tail) :
    emcmotCommandHandler env s =
      {s with debug := {s.debug with split := s.debug.split + 1}} := by
  unfold emcmotCommandHandler; rw [if_pos h]

/-- A stale sequence number leaves the state untouched. -/
lemma handler_stale (env : KinEnv) (s : MotState)
    (h1 : s.command.head = s.command.tail)
    (h2 : s.command.commandNum = s.status.commandNumEcho) :
    emcmotCommandHandler env s = s := by
  unfold emcmotCommandHandler; rw [if_neg (not_not_intro h1), if_pos h2]

/-- C2 (amended): for every command other than TELEOP, processing preserves
the at-most-one-mode-latch invariant; a TELEOP command sets teleoperating
without touching the coordinating latch, so it preserves coordinating
verbatim (and can leave both latches set when coordinating was up). -/
theorem C2_mode_latches_exclusive (env : KinEnv) (s : MotState)
    (hpre : s.debug.coordinating = false ∨ s.debug.teleoperating = false) :
    (s.command.command ≠ EmcmotCommandKind.TELEOP →
      ((emcmotCommandHandler env s).debug.coordinating = false ∨
       (emcmotCommandHandler env s).debug.teleoperating = false)) ∧
    (s.command.command = EmcmotCommandKind.TELEOP →
      (emcmotCommandHandler env s).debug.coordinating = s.debug.coordinating) := by
  by_cases hsp : s.command.head = s.command.tail
  case neg =>
    rw [handler_split env s hsp]
    exact ⟨fun _ => by simpa using hpre, fun _ => rfl⟩
  case pos =>
    by_cases hst : s.command.commandNum = s.status.commandNumEcho
    · rw [handler_stale env s hsp hst]
      exact ⟨fun _ => hpre, fun _ => rfl⟩
    · rw [handler_run env s hsp hst]
      constructor
      · intro hne
        simp only [publishRecords_debug_coordinating, publishRecords_debug_teleoperating]
        by_cases hF : s.command.command = EmcmotCommandKind.FREE
        · rw [hF]
          simp only [dispatchCommand]
          exact Or.inl (execFREE_latches (beginWrite s)).1
        by_cases hC : s.command.command = EmcmotCommandKind.COORD
        · rw [hC]
          simp only [dispatchCommand]
          exact Or.inr (execCOORD_teleoperating env (beginWrite s))
        by_cases hD : s.command.command = EmcmotCommandKind.DISABLE
        · rw [hD]
          simp only [dispatchCommand]
          rcases execDISABLE_latches env (beginWrite s) with ⟨e1, e2⟩ | ⟨e1, _⟩
          · rw [e1, e2]; simpa using hpre
          · exact Or.inl e1
        by_cases hE : s.command.command = EmcmotCommandKind.ENABLE
        · rw [hE]
          simp only [dispatchCommand]
          rcases execENABLE_latches env (beginWrite s) with ⟨e1, e2⟩ | ⟨e1, _⟩
          · rw [e1, e2]; simpa using hpre
          · exact Or.inl e1
        have hq := dispatch_latch_eq env s.command.command (beginWrite s) hF hC hne hD hE
        rw [hq.1, hq.2]
        simpa using hpre
      · intro hT
        rw [hT]
        simp only [dispatchCommand, publishRecords_debug_coordinating]
        rw [execTELEOP_coordinating env (beginWrite s)]
        simp

theorem C2_mode_latches_exclusive_witness :
    (baseState.debug.coordinating = false ∨ baseState.debug.teleoperating = false) ∧
    ((baseState.command.command ≠ EmcmotCommandKind.TELEOP →
       ((emcmotCommandHandler envIdentity baseState).debug.coordinating = false ∨
        (emcmotCommandHandler envIdentity baseState).debug.teleoperating = false)) ∧
     (baseState.command.command = EmcmotCommandKind.TELEOP →
       (emcmotCommandHandler envIdentity baseState).debug.coordinating =
         baseState.debug.coordinating)) :=
  ⟨by decide, C2_mode_latches_exclusive envIdentity baseState (by decide)⟩

/-- The state refuting C2 as stated: coordinated-latch already up, a fresh
TELEOP command arrives on an identity-kinematics machine. -/
def c2state : MotState :=
  {baseState with
    command := {commandInit with command := EmcmotCommandKind.TELEOP},
    debug := {debugInit with coordinating := true}}

theorem C2_counterexample :
    (c2state.debug.coordinating = true ∧ c2state.debug.teleoperating = false) ∧
    (emcmotCommandHandler envIdentity c2state).debug.coordinating = true ∧
    (emcmotCommandHandler envIdentity c2state).debug.teleoperating = true := by decide

/-- C4 (amended): every processed command exits with head = tail on the
status, config and debug records, and for status and debug the head is one
ahead of the tail throughout the dispatch (the switch never moves those
counters).  The config record only satisfies the exit equality: its head
is not always raised before mutation. -/
theorem C4_bracket_protocol (env : KinEnv) (s : MotState)
    (h1 : s.command.head = s.command.tail)
    (h2 : s.command.commandNum ≠ s.status.commandNumEcho)
    (hs : s.status.head = s.status.tail)
    (hd : s.debug.head = s.debug.tail) :
    ((emcmotCommandHandler env s).status.head = (emcmotCommandHandler env s).status.tail ∧
     (emcmotCommandHandler env s).config.head = (emcmotCommandHandler env s).config.tail ∧
     (emcmotCommandHandler env s).debug.head = (emcmotCommandHandler env s).debug.tail) ∧
    ((beginWrite s).status.head = (beginWrite s).status.tail + 1 ∧
     (beginWrite s).debug.head = (beginWrite s).debug.tail + 1) ∧
    ((dispatchCommand env s.command.command (beginWrite s)).status.head =
       (beginWrite s).status.head ∧
     (dispatchCommand env s.command.command (beginWrite s)).status.tail =
       (beginWrite s).status.tail ∧
     (dispatchCommand env s.command.command (beginWrite s)).debug.head =
       (beginWrite s).debug.head ∧
     (dispatchCommand env s.command.command (beginWrite s)).debug.tail =
       (beginWrite s).debug.tail) := by
  obtain ⟨e1, e2, e3, e4, _⟩ := dispatch_steady env s.command.command (beginWrite s)
  rw [handler_run env s h1 h2]
  refine ⟨⟨by simp, by simp, by simp⟩, ⟨by simp [hs], by simp [hd]⟩, e1, e2, e3, e4⟩

theorem C4_bracket_protocol_witness :
    (c7state.command.head = c7state.command.tail ∧
     c7state.command.commandNum ≠ c7state.status.commandNumEcho ∧
     c7state.status.head = c7state.status.tail ∧
     c7state.debug.head = c7state.debug.tail) ∧
    (((emcmotCommandHandler envIdentity c7state).status.head =
        (emcmotCommandHandler envIdentity c7state).status.tail ∧
      (emcmotCommandHandler envIdentity c7state).config.head =
        (emcmotCommandHandler envIdentity c7state).config.tail ∧
      (emcmotCommandHandler envIdentity c7state).debug.head =
        (emcmotCommandHandler envIdentity c7state).debug.tail) ∧
     ((beginWrite c7state).status.head = (beginWrite c7state).status.tail + 1 ∧
      (beginWrite c7state).debug.head = (beginWrite c7state).debug.tail + 1) ∧
     ((dispatchCommand envIdentity c7state.command.command (beginWrite c7state)).status.head =
        (beginWrite c7state).status.head ∧
      (dispatchCommand envIdentity c7state.command.command (beginWrite c7state)).status.tail =
        (beginWrite c7state).status.tail ∧
      (dispatchCommand envIdentity c7state.command.command (beginWrite c7state)).debug.head =
        (beginWrite c7state).debug.head ∧
      (dispatchCommand envIdentity c7state.command.command (beginWrite c7state)).debug.tail =
        (beginWrite c7state).debug.tail)) :=
  ⟨⟨by decide, by decide, by decide, by decide⟩,
   C4_bracket_protocol envIdentity c7state (by decide) (by decide) (by decide) (by decide)⟩

/-- The run refuting the config part of C4 as stated: SET_NUM_AXES writes
config.numAxes (2 becomes 5) while config.head stays equal to config.tail;
the config head is never incremented before the mutation. -/
def c4state : MotState :=
  {baseState with
    command := {commandInit with command := EmcmotCommandKind.SET_NUM_AXES, axis := 5},
    config := {configInit with numAxes := 2}}

theorem C4_counterexample :
    emcmotCommandHandler envIdentity c4state =
      publishRecords (dispatchCommand envIdentity EmcmotCommandKind.SET_NUM_AXES
        (beginWrite c4state)) ∧
    c4state.config.numAxes = 2 ∧ c4state.config.head = 0 ∧ c4state.config.tail = 0 ∧
    (dispatchCommand envIdentity EmcmotCommandKind.SET_NUM_AXES
      (beginWrite c4state)).config.numAxes = 5 ∧
    (dispatchCommand envIdentity EmcmotCommandKind.SET_NUM_AXES
      (beginWrite c4state)).config.head = 0 ∧
    (dispatchCommand envIdentity EmcmotCommandKind.SET_NUM_AXES
      (beginWrite c4state)).config.tail = 0 :=
  ⟨handler_run envIdentity c4state (by decide) (by decide), by decide, by decide, by decide,
   by decide, by decide, by decide⟩

/-- The run exhibiting C5's divergence: a SCALE command with a negative
scale makes the core write 0 into the supervisor-owned command record's
scale field, so the command record is not read-only to the core. -/
def c5state : MotState :=
  {baseState with
    command := {commandInit with command := EmcmotCommandKind.SCALE, scale := -1}}

/-- C5: the claim says the core never writes the shared command record;
evaluating the code at the failing input (SCALE with scale -1) shows the
handler clamps the negative scale by writing 0 into the command record
itself, so the command record is mutated. -/
theorem C5_scale_mutates_command_record :
    c5state.command.scale = -1 ∧
    (emcmotCommandHandler envIdentity c5state).command.scale = 0 ∧
    (emcmotCommandHandler envIdentity c5state).command ≠ c5state.command := by decide

/-- Full case analysis of the SET_LINE arm: result code, motion-error flag,
queue effect and rehomeAll latch in each of the four control-flow cases. -/
lemma execSET_LINE_spec (env : KinEnv) (s1 : MotState) :
    ((s1.status.motionFlag.coordFlag = false ∨ s1.status.motionFlag.enableFlag = false) →
      (execSET_LINE env s1).status.commandStatus = EmcmotCommandStatus.INVALID_COMMAND ∧
      (execSET_LINE env s1).status.motionFlag.errorFlag = true ∧
      (execSET_LINE env s1).debug.queue = s1.debug.queue ∧
      (execSET_LINE env s1).globals.rehomeAll = s1.globals.rehomeAll) ∧
    (s1.status.motionFlag.coordFlag = true → s1.status.motionFlag.enableFlag = true →
      (inRange env s1 s1.command.pos = false ∨ checkLimits s1 = false) →
      (execSET_LINE env s1).status.commandStatus = EmcmotCommandStatus.INVALID_PARAMS ∧
      (execSET_LINE env s1).status.motionFlag.errorFlag = true ∧
      (execSET_LINE env s1).debug.queue.segments = [] ∧
      (execSET_LINE env s1).globals.rehomeAll = s1.globals.rehomeAll) ∧
    (s1.status.motionFlag.coordFlag = true → s1.status.motionFlag.enableFlag = true →
      inRange env s1 s1.command.pos = true → checkLimits s1 = true →
      s1.debug.queue.full = true →
      (execSET_LINE env s1).status.commandStatus = EmcmotCommandStatus.BAD_EXEC ∧
      (execSET_LINE env s1).status.motionFlag.errorFlag = true ∧
      (execSET_LINE env s1).debug.queue.segments = [] ∧
      (execSET_LINE env s1).globals.rehomeAll = s1.globals.rehomeAll) ∧
    (s1.status.motionFlag.coordFlag = true → s1.status.motionFlag.enableFlag = true →
      inRange env s1 s1.command.pos = true → checkLimits s1 = true →
      s1.debug.queue.full = false →
      (execSET_LINE env s1).status.commandStatus = s1.status.commandStatus ∧
      (execSET_LINE env s1).status.motionFlag.errorFlag = false ∧
      (execSET_LINE env s1).debug.queue.segments =
        s1.debug.queue.segments ++ [TpSegment.line s1.command.pos] ∧
      (execSET_LINE env s1).debug.queue.segId = s1.command.id ∧
      (execSET_LINE env s1).globals.rehomeAll = true) := by
  unfold execSET_LINE
  refine ⟨?_, ?_, ?_, ?_⟩
  · intro h
    rw [if_pos (by rcases h with h | h <;> simp [h])]
    simp [setMotionError, setCommandStatus]
  · intro hco hen hfail
    rw [if_neg (by simp [hco, hen])]
    rcases hfail with hf | hf
    · rw [if_pos (by simp [hf])]
      simp [setMotionError, abortQueue, setCommandStatus, tpAbort]
    · by_cases hin : inRange env s1 s1.command.pos = true
      · rw [if_neg (by simp [hin]), if_pos (by simp [hf])]
        simp [setMotionError, abortQueue, setCommandStatus, tpAbort]
      · rw [if_pos (by simp [Bool.of_not_eq_true hin])]
        simp [setMotionError, abortQueue, setCommandStatus, tpAbort]
  · intro hco hen hin hcl hfull
    rw [if_neg (by simp [hco, hen]), if_neg (by simp [hin]), if_neg (by simp [hcl])]
    simp only [tpAddLine, tpSetId, hfull, if_true]
    simp [setMotionError, abortQueue, setCommandStatus, tpAbort]
  · intro hco hen hin hcl hfull
    rw [if_neg (by simp [hco, hen]), if_neg (by simp [hin]), if_neg (by simp [hcl])]
    simp only [tpAddLine, tpSetId, hfull, Bool.false_eq_true, if_false]
    simp [setMotionError, setRehomeAll, setCommandStatus]

/-- Full case analysis of the SET_CIRCLE arm: result code, motion-error flag,
queue effect and rehomeAll latch in each of the four control-flow cases. -/
lemma execSET_CIRCLE_spec (env : KinEnv) (s1 : MotState) :
    ((s1.status.motionFlag.coordFlag = false ∨ s1.status.motionFlag.enableFlag = false) →
      (execSET_CIRCLE env s1).status.commandStatus = EmcmotCommandStatus.INVALID_COMMAND ∧
      (execSET_CIRCLE env s1).status.motionFlag.errorFlag = true ∧
      (execSET_CIRCLE env s1).debug.queue = s1.debug.queue ∧
      (execSET_CIRCLE env s1).globals.rehomeAll = s1.globals.rehomeAll) ∧
    (s1.status.motionFlag.coordFlag = true → s1.status.motionFlag.enableFlag = true →
      (inRange env s1 s1.command.pos = false ∨ checkLimits s1 = false) →
      (execSET_CIRCLE env s1).status.commandStatus = EmcmotCommandStatus.INVALID_PARAMS ∧
      (execSET_CIRCLE env s1).status.motionFlag.errorFlag = true ∧
      (execSET_CIRCLE env s1).debug.queue.segments = [] ∧
      (execSET_CIRCLE env s1).globals.rehomeAll = s1.globals.rehomeAll) ∧
    (s1.status.motionFlag.coordFlag = true → s1.status.motionFlag.enableFlag = true →
      inRange env s1 s1.command.pos = true → checkLimits s1 = true →
      s1.debug.queue.full = true →
      (execSET_CIRCLE env s1).status.commandStatus = EmcmotCommandStatus.BAD_EXEC ∧
      (execSET_CIRCLE env s1).status.motionFlag.errorFlag = true ∧
      (execSET_CIRCLE env s1).debug.queue.segments = [] ∧
      (execSET_CIRCLE env s1).globals.rehomeAll = s1.globals.rehomeAll) ∧
    (s1.status.motionFlag.coordFlag = true → s1.status.motionFlag.enableFlag = true →
      inRange env s1 s1.command.pos = true → checkLimits s1 = true →
      s1.debug.queue.full = false →
      (execSET_CIRCLE env s1).status.commandStatus = s1.status.commandStatus ∧
      (execSET_CIRCLE env s1).status.motionFlag.errorFlag = false ∧
      (execSET_CIRCLE env s1).debug.queue.segments =
        s1.debug.queue.segments ++ [TpSegment.circle s1.command.pos s1.command.center s1.command.normal s1.command.turn] ∧
      (execSET_CIRCLE env s1).debug.queue.segId = s1.command.id ∧
      (execSET_CIRCLE env s1).globals.rehomeAll = true) := by
  unfold execSET_CIRCLE
  refine ⟨?_, ?_, ?_, ?_⟩
  · intro h
    rw [if_pos (by rcases h with h | h <;> simp [h])]
    simp [setMotionError, setCommandStatus]
  · intro hco hen hfail
    rw [if_neg (by simp [hco, hen])]
    rcases hfail with hf | hf
    · rw [if_pos (by simp [hf])]
      simp [setMotionError, abortQueue, setCommandStatus, tpAbort]
    · by_cases hin : inRange env s1 s1.command.pos = true
      · rw [if_neg (by simp [hin]), if_pos (by simp [hf])]
        simp [setMotionError, abortQueue, setCommandStatus, tpAbort]
      · rw [if_pos (by simp [Bool.of_not_eq_true hin])]
        simp [setMotionError, abortQueue, setCommandStatus, tpAbort]
  · intro hco hen hin hcl hfull
    rw [if_neg (by simp [hco, hen]), if_neg (by simp [hin]), if_neg (by simp [hcl])]
    simp only [tpAddCircle, tpSetId, hfull, if_true]
    simp [setMotionError, abortQueue, setCommandStatus, tpAbort]
  · intro hco hen hin hcl hfull
    rw [if_neg (by simp [hco, hen]), if_neg (by simp [hin]), if_neg (by simp [hcl])]
    simp only [tpAddCircle, tpSetId, hfull, Bool.false_eq_true, if_false]
    simp [setMotionError, setRehomeAll, setCommandStatus]

/-- Full case analysis of the PROBE arm: result code, motion-error flag,
queue effect and rehomeAll latch in each of the four control-flow cases. -/
lemma execPROBE_spec (env : KinEnv) (s1 : MotState) :
    ((s1.status.motionFlag.coordFlag = false ∨ s1.status.motionFlag.enableFlag = false) →
      (execPROBE env s1).status.commandStatus = EmcmotCommandStatus.INVALID_COMMAND ∧
      (execPROBE env s1).status.motionFlag.errorFlag = true ∧
      (execPROBE env s1).debug.queue = s1.debug.queue ∧
      (execPROBE env s1).globals.rehomeAll = s1.globals.rehomeAll) ∧
    (s1.status.motionFlag.coordFlag = true → s1.status.motionFlag.enableFlag = true →
      (inRange env s1 s1.command.pos = false ∨ checkLimits s1 = false) →
      (execPROBE env s1).status.commandStatus = EmcmotCommandStatus.INVALID_PARAMS ∧
      (execPROBE env s1).status.motionFlag.errorFlag = true ∧
      (execPROBE env s1).debug.queue.segments = [] ∧
      (execPROBE env s1).globals.rehomeAll = s1.globals.rehomeAll) ∧
    (s1.status.motionFlag.coordFlag = true → s1.status.motionFlag.enableFlag = true →
      inRange env s1 s1.command.pos = true → checkLimits s1 = true →
      s1.debug.queue.full = true →
      (execPROBE env s1).status.commandStatus = EmcmotCommandStatus.BAD_EXEC ∧
      (execPROBE env s1).status.motionFlag.errorFlag = true ∧
      (execPROBE env s1).debug.queue.segments = [] ∧
      (execPROBE env s1).globals.rehomeAll = s1.globals.rehomeAll) ∧
    (s1.status.motionFlag.coordFlag = true → s1.status.motionFlag.enableFlag = true →
      inRange env s1 s1.command.pos = true → checkLimits s1 = true →
      s1.debug.queue.full = false →
      (execPROBE env s1).status.commandStatus = s1.status.commandStatus ∧
      (execPROBE env s1).status.motionFlag.errorFlag = false ∧
      (execPROBE env s1).debug.queue.segments =
        s1.debug.queue.segments ++ [TpSegment.line s1.command.pos] ∧
      (execPROBE env s1).debug.queue.segId = s1.command.id ∧
      (execPROBE env s1).globals.rehomeAll = true ∧
      (execPROBE env s1).status.probeTripped = false ∧
      (execPROBE env s1).status.probing = true) := by
  unfold execPROBE
  refine ⟨?_, ?_, ?_, ?_⟩
  · intro h
    rw [if_pos (by rcases h with h | h <;> simp [h])]
    simp [setMotionError, setCommandStatus]
  · intro hco hen hfail
    rw [if_neg (by simp [hco, hen])]
    rcases hfail with hf | hf
    · rw [if_pos (by simp [hf])]
      simp [setMotionError, abortQueue, setCommandStatus, tpAbort]
    · by_cases hin : inRange env s1 s1.command.pos = true
      · rw [if_neg (by simp [hin]), if_pos (by simp [hf])]
        simp [setMotionError, abortQueue, setCommandStatus, tpAbort]
      · rw [if_pos (by simp [Bool.of_not_eq_true hin])]
        simp [setMotionError, abortQueue, setCommandStatus, tpAbort]
  · intro hco hen hin hcl hfull
    rw [if_neg (by simp [hco, hen]), if_neg (by simp [hin]), if_neg (by simp [hcl])]
    simp only [tpAddLine, tpSetId, hfull, if_true]
    simp [setMotionError, abortQueue, setCommandStatus, tpAbort]
  · intro hco hen hin hcl hfull
    rw [if_neg (by simp [hco, hen]), if_neg (by simp [hin]), if_neg (by simp [hcl])]
    simp only [tpAddLine, tpSetId, hfull, Bool.false_eq_true, if_false]
    simp [setMotionError, setRehomeAll, setCommandStatus]

/-- Shared inversion for the three coordinated-move arms: when the arm
result is OK, the mode and enable flags were up, the range and limit
checks passed, the planner accepted, and rehomeAll is latched. -/
lemma coord_arm_ok_inv (env : KinEnv) (s1 t : MotState)
    (sp1 : (s1.status.motionFlag.coordFlag = false ∨ s1.status.motionFlag.enableFlag = false) →
      t.status.commandStatus = EmcmotCommandStatus.INVALID_COMMAND)
    (sp2 : s1.status.motionFlag.coordFlag = true → s1.status.motionFlag.enableFlag = true →
      (inRange env s1 s1.command.pos = false ∨ checkLimits s1 = false) →
      t.status.commandStatus = EmcmotCommandStatus.INVALID_PARAMS)
    (sp3 : s1.status.motionFlag.coordFlag = true → s1.status.motionFlag.enableFlag = true →
      inRange env s1 s1.command.pos = true → checkLimits s1 = true →
      s1.debug.queue.full = true →
      t.status.commandStatus = EmcmotCommandStatus.BAD_EXEC)
    (sp4 : s1.status.motionFlag.coordFlag = true → s1.status.motionFlag.enableFlag = true →
      inRange env s1 s1.command.pos = true → checkLimits s1 = true →
      s1.debug.queue.full = false →
      t.globals.rehomeAll = true)
    (hok : t.status.commandStatus = EmcmotCommandStatus.OK) :
    s1.status.motionFlag.coordFlag = true ∧ s1.status.motionFlag.enableFlag = true ∧
    inRange env s1 s1.command.pos = true ∧ checkLimits s1 = true ∧
    t.globals.rehomeAll = true := by
  by_cases hco : s1.status.motionFlag.coordFlag = true
  case neg =>
    rw [sp1 (Or.inl (Bool.of_not_eq_true hco))] at hok
    exact absurd hok (by simp)
  by_cases hen : s1.status.motionFlag.enableFlag = true
  case neg =>
    rw [sp1 (Or.inr (Bool.of_not_eq_true hen))] at hok
    exact absurd hok (by simp)
  by_cases hin : inRange env s1 s1.command.pos = true
  case neg =>
    rw [sp2 hco hen (Or.inl (Bool.of_not_eq_true hin))] at hok
    exact absurd hok (by simp)
  by_cases hcl : checkLimits s1 = true
  case neg =>
    rw [sp2 hco hen (Or.inr (Bool.of_not_eq_true hcl))] at hok
    exact absurd hok (by simp)
  by_cases hfull : s1.debug.queue.full = true
  case pos =>
    rw [sp3 hco hen hin hcl hfull] at hok
    exact absurd hok (by simp)
  case neg =>
    exact ⟨hco, hen, hin, hcl, sp4 hco hen hin hcl (Bool.of_not_eq_true hfull)⟩

/-- Shared result taxonomy for the three coordinated-move arms. -/
lemma coord_arm_taxonomy (env : KinEnv) (s1 t : MotState)
    (sp1 : (s1.status.motionFlag.coordFlag = false ∨ s1.status.motionFlag.enableFlag = false) →
      t.status.commandStatus = EmcmotCommandStatus.INVALID_COMMAND ∧
      t.status.motionFlag.errorFlag = true ∧
      t.debug.queue = s1.debug.queue)
    (sp2 : s1.status.motionFlag.coordFlag = true → s1.status.motionFlag.enableFlag = true →
      (inRange env s1 s1.command.pos = false ∨ checkLimits s1 = false) →
      t.status.commandStatus = EmcmotCommandStatus.INVALID_PARAMS ∧
      t.status.motionFlag.errorFlag = true ∧
      t.debug.queue.segments = [])
    (sp3 : s1.status.motionFlag.coordFlag = true → s1.status.motionFlag.enableFlag = true →
      inRange env s1 s1.command.pos = true → checkLimits s1 = true →
      s1.debug.queue.full = true →
      t.status.commandStatus = EmcmotCommandStatus.BAD_EXEC ∧
      t.status.motionFlag.errorFlag = true ∧
      t.debug.queue.segments = [])
    (sp4 : s1.status.motionFlag.coordFlag = true → s1.status.motionFlag.enableFlag = true →
      inRange env s1 s1.command.pos = true → checkLimits s1 = true →
      s1.debug.queue.full = false →
      t.status.commandStatus = EmcmotCommandStatus.OK ∧
      t.status.motionFlag.errorFlag = false) :
    (t.status.commandStatus = EmcmotCommandStatus.INVALID_COMMAND ↔
      ¬(s1.status.motionFlag.coordFlag = true ∧ s1.status.motionFlag.enableFlag = true)) ∧
    (t.status.commandStatus = EmcmotCommandStatus.INVALID_PARAMS ↔
      (s1.status.motionFlag.coordFlag = true ∧ s1.status.motionFlag.enableFlag = true ∧
       ¬(inRange env s1 s1.command.pos = true ∧ checkLimits s1 = true))) ∧
    (t.status.commandStatus = EmcmotCommandStatus.BAD_EXEC ↔
      (s1.status.motionFlag.coordFlag = true ∧ s1.status.motionFlag.enableFlag = true ∧
       inRange env s1 s1.command.pos = true ∧ checkLimits s1 = true ∧
       s1.debug.queue.full = true)) ∧
    (t.status.commandStatus ≠ EmcmotCommandStatus.OK →
      t.status.motionFlag.errorFlag = true) ∧
    ((t.status.commandStatus = EmcmotCommandStatus.INVALID_PARAMS ∨
      t.status.commandStatus = EmcmotCommandStatus.BAD_EXEC) →
      t.debug.queue.segments = []) ∧
    (t.status.commandStatus = EmcmotCommandStatus.INVALID_COMMAND →
      t.debug.queue = s1.debug.queue) := by
  by_cases hco : s1.status.motionFlag.coordFlag = true
  case neg =>
    obtain ⟨st, er, qu⟩ := sp1 (Or.inl (Bool.of_not_eq_true hco))
    rw [st, er, qu]
    simp [hco]
  by_cases hen : s1.status.motionFlag.enableFlag = true
  case neg =>
    obtain ⟨st, er, qu⟩ := sp1 (Or.inr (Bool.of_not_eq_true hen))
    rw [st, er, qu]
    simp [hen]
  by_cases hin : inRange env s1 s1.command.pos = true
  case neg =>
    obtain ⟨st, er, qu⟩ := sp2 hco hen (Or.inl (Bool.of_not_eq_true hin))
    rw [st, er]
    simp [hco, hen, hin, qu]
  by_cases hcl : checkLimits s1 = true
  case neg =>
    obtain ⟨st, er, qu⟩ := sp2 hco hen (Or.inr (Bool.of_not_eq_true hcl))
    rw [st, er]
    simp [hco, hen, hcl, qu]
  by_cases hfull : s1.debug.queue.full = true
  case pos =>
    obtain ⟨st, er, qu⟩ := sp3 hco hen hin hcl hfull
    rw [st, er]
    simp [hco, hen, hin, hcl, hfull, qu]
  case neg =>
    obtain ⟨st, er⟩ := sp4 hco hen hin hcl (Bool.of_not_eq_true hfull)
    rw [st, er]
    simp [hco, hen, hin, hcl, Bool.of_not_eq_true hfull]

/-- C1: Every SET_LINE, SET_CIRCLE or PROBE command that completes with
result OK was issued in coordinated mode while enabled, with the inverse
kinematics of the target inside [minLimit, maxLimit] on every active axis
and no limit flag set on any active axis, and it leaves the rehomeAll
latch set. -/
theorem C1_commit_preconditions (env : KinEnv) (s : MotState)
    (h1 : s.command.head = s.command.tail)
    (h2 : s.command.commandNum ≠ s.status.commandNumEcho)
    (hc : s.command.command = EmcmotCommandKind.SET_LINE ∨
          s.command.command = EmcmotCommandKind.SET_CIRCLE ∨
          s.command.command = EmcmotCommandKind.PROBE)
    (hok : (emcmotCommandHandler env s).status.commandStatus = EmcmotCommandStatus.OK) :
    s.status.motionFlag.coordFlag = true ∧ s.status.motionFlag.enableFlag = true ∧
    (∀ ax : Fin maxAxis, (s.status.axisFlag ax).activeFlag = true →
      s.config.minLimit ax ≤ env.kinematicsInverse s.command.pos ax ∧
      env.kinematicsInverse s.command.pos ax ≤ s.config.maxLimit ax) ∧
    (∀ ax : Fin maxAxis, (s.status.axisFlag ax).activeFlag = true →
      (s.status.axisFlag ax).pslFlag = false ∧ (s.status.axisFlag ax).nslFlag = false ∧
      (s.status.axisFlag ax).phlFlag = false ∧ (s.status.axisFlag ax).nhlFlag = false) ∧
    (emcmotCommandHandler env s).globals.rehomeAll = true := by
  rw [handler_run env s h1 h2] at hok ⊢
  rcases hc with hcc | hcc | hcc <;>
    rw [hcc] at hok ⊢ <;>
    simp only [dispatchCommand, publishRecords_status_commandStatus,
      publishRecords_globals] at hok ⊢
  · have hinv := coord_arm_ok_inv env (beginWrite s) (execSET_LINE env (beginWrite s))
      (fun h => ((execSET_LINE_spec env (beginWrite s)).1 h).1)
      (fun a b c => ((execSET_LINE_spec env (beginWrite s)).2.1 a b c).1)
      (fun a b c d e => ((execSET_LINE_spec env (beginWrite s)).2.2.1 a b c d e).1)
      (fun a b c d e => ((execSET_LINE_spec env (beginWrite s)).2.2.2 a b c d e).2.2.2.2)
      hok
    simp only [beginWrite_status_motionFlag, inRange_beginWrite, beginWrite_command,
      checkLimits_beginWrite] at hinv
    exact ⟨hinv.1, hinv.2.1, (inRange_iff env s s.command.pos).mp hinv.2.2.1,
      (checkLimits_iff s).mp hinv.2.2.2.1, hinv.2.2.2.2⟩
  · have hinv := coord_arm_ok_inv env (beginWrite s) (execSET_CIRCLE env (beginWrite s))
      (fun h => ((execSET_CIRCLE_spec env (beginWrite s)).1 h).1)
      (fun a b c => ((execSET_CIRCLE_spec env (beginWrite s)).2.1 a b c).1)
      (fun a b c d e => ((execSET_CIRCLE_spec env (beginWrite s)).2.2.1 a b c d e).1)
      (fun a b c d e => ((execSET_CIRCLE_spec env (beginWrite s)).2.2.2 a b c d e).2.2.2.2)
      hok
    simp only [beginWrite_status_motionFlag, inRange_beginWrite, beginWrite_command,
      checkLimits_beginWrite] at hinv
    exact ⟨hinv.1, hinv.2.1, (inRange_iff env s s.command.pos).mp hinv.2.2.1,
      (checkLimits_iff s).mp hinv.2.2.2.1, hinv.2.2.2.2⟩
  · have hinv := coord_arm_ok_inv env (beginWrite s) (execPROBE env (beginWrite s))
      (fun h => ((execPROBE_spec env (beginWrite s)).1 h).1)
      (fun a b c => ((execPROBE_spec env (beginWrite s)).2.1 a b c).1)
      (fun a b c d e => ((execPROBE_spec env (beginWrite s)).2.2.1 a b c d e).1)
      (fun a b c d e => ((execPROBE_spec env (beginWrite s)).2.2.2 a b c d e).2.2.2.2.1)
      hok
    simp only [beginWrite_status_motionFlag, inRange_beginWrite, beginWrite_command,
      checkLimits_beginWrite] at hinv
    exact ⟨hinv.1, hinv.2.1, (inRange_iff env s s.command.pos).mp hinv.2.2.1,
      (checkLimits_iff s).mp hinv.2.2.2.1, hinv.2.2.2.2⟩

/-- Concrete run of C1: spec scenario 3: enabled, coordinated, SET_LINE to
(5, 0, 0) with identity kinematics, limits -10 and 10, queue empty. -/
def c1state : MotState :=
  {baseState with
    command := {commandInit with
      command := EmcmotCommandKind.SET_LINE,
      pos := {tran := {x := 5, y := 0, z := 0}, a := 0, b := 0, c := 0},
      id := 7},
    status := {statusInit with
      motionFlag := {motionFlagsInit with enableFlag := true, coordFlag := true}}}

theorem C1_commit_preconditions_witness :
    (c1state.command.head = c1state.command.tail ∧
     c1state.command.commandNum ≠ c1state.status.commandNumEcho ∧
     c1state.command.command = EmcmotCommandKind.SET_LINE ∧
     (emcmotCommandHandler envIdentity c1state).status.commandStatus =
       EmcmotCommandStatus.OK) ∧
    (c1state.status.motionFlag.coordFlag = true ∧
     c1state.status.motionFlag.enableFlag = true ∧
     (∀ ax : Fin maxAxis, (c1state.status.axisFlag ax).activeFlag = true →
       c1state.config.minLimit ax ≤ envIdentity.kinematicsInverse c1state.command.pos ax ∧
       envIdentity.kinematicsInverse c1state.command.pos ax ≤ c1state.config.maxLimit ax) ∧
     (∀ ax : Fin maxAxis, (c1state.status.axisFlag ax).activeFlag = true →
       (c1state.status.axisFlag ax).pslFlag = false ∧
       (c1state.status.axisFlag ax).nslFlag = false ∧
       (c1state.status.axisFlag ax).phlFlag = false ∧
       (c1state.status.axisFlag ax).nhlFlag = false) ∧
     (emcmotCommandHandler envIdentity c1state).globals.rehomeAll = true) :=
  ⟨⟨by decide, by decide, by decide, by decide⟩,
   C1_commit_preconditions envIdentity c1state (by decide) (by decide)
     (Or.inl (by decide)) (by decide)⟩

/-- C3 (amended): for SET_LINE, SET_CIRCLE and PROBE the result follows
the taxonomy - INVALID_COMMAND exactly when the mode/enable precondition
fails, INVALID_PARAMS exactly when the target is out of range or limits
are tripped, BAD_EXEC exactly when the planner rejects the add - and the
MOTION_ERROR flag is set in every failure case.  The coordinated queue is
aborted by the INVALID_PARAMS and BAD_EXEC failures; the INVALID_COMMAND
failure leaves the queue untouched. -/
theorem C3_error_taxonomy (env : KinEnv) (s : MotState)
    (h1 : s.command.head = s.command.tail)
    (h2 : s.command.commandNum ≠ s.status.commandNumEcho)
    (hc : s.command.command = EmcmotCommandKind.SET_LINE ∨
          s.command.command = EmcmotCommandKind.SET_CIRCLE ∨
          s.command.command = EmcmotCommandKind.PROBE) :
    ((emcmotCommandHandler env s).status.commandStatus =
        EmcmotCommandStatus.INVALID_COMMAND ↔
      ¬(s.status.motionFlag.coordFlag = true ∧ s.status.motionFlag.enableFlag = true)) ∧
    ((emcmotCommandHandler env s).status.commandStatus =
        EmcmotCommandStatus.INVALID_PARAMS ↔
      (s.status.motionFlag.coordFlag = true ∧ s.status.motionFlag.enableFlag = true ∧
       ¬(inRange env s s.command.pos = true ∧ checkLimits s = true))) ∧
    ((emcmotCommandHandler env s).status.commandStatus = EmcmotCommandStatus.BAD_EXEC ↔
      (s.status.motionFlag.coordFlag = true ∧ s.status.motionFlag.enableFlag = true ∧
       inRange env s s.command.pos = true ∧ checkLimits s = true ∧
       s.debug.queue.full = true)) ∧
    ((emcmotCommandHandler env s).status.commandStatus ≠ EmcmotCommandStatus.OK →
      (emcmotCommandHandler env s).status.motionFlag.errorFlag = true) ∧
    (((emcmotCommandHandler env s).status.commandStatus =
        EmcmotCommandStatus.INVALID_PARAMS ∨
      (emcmotCommandHandler env s).status.commandStatus = EmcmotCommandStatus.BAD_EXEC) →
      (emcmotCommandHandler env s).debug.queue.segments = []) ∧
    ((emcmotCommandHandler env s).status.commandStatus =
        EmcmotCommandStatus.INVALID_COMMAND →
      (emcmotCommandHandler env s).debug.queue = s.debug.queue) := by
  rw [handler_run env s h1 h2]
  rcases hc with hcc | hcc | hcc <;>
    rw [hcc] <;>
    simp only [dispatchCommand, publishRecords_status_commandStatus,
      publishRecords_status_motionFlag, publishRecords_debug_queue]
  · have htax := coord_arm_taxonomy env (beginWrite s) (execSET_LINE env (beginWrite s))
      (fun h => ⟨((execSET_LINE_spec env (beginWrite s)).1 h).1,
        ((execSET_LINE_spec env (beginWrite s)).1 h).2.1,
        ((execSET_LINE_spec env (beginWrite s)).1 h).2.2.1⟩)
      (fun a b c => ⟨((execSET_LINE_spec env (beginWrite s)).2.1 a b c).1,
        ((execSET_LINE_spec env (beginWrite s)).2.1 a b c).2.1,
        ((execSET_LINE_spec env (beginWrite s)).2.1 a b c).2.2.1⟩)
      (fun a b c d e => ⟨((execSET_LINE_spec env (beginWrite s)).2.2.1 a b c d e).1,
        ((execSET_LINE_spec env (beginWrite s)).2.2.1 a b c d e).2.1,
        ((execSET_LINE_spec env (beginWrite s)).2.2.1 a b c d e).2.2.1⟩)
      (fun a b c d e => ⟨((execSET_LINE_spec env (beginWrite s)).2.2.2 a b c d e).1.trans
          (beginWrite_status_commandStatus s),
        ((execSET_LINE_spec env (beginWrite s)).2.2.2 a b c d e).2.1⟩)
    simp only [beginWrite_status_motionFlag, inRange_beginWrite, beginWrite_command,
      checkLimits_beginWrite, beginWrite_debug_queue] at htax
    exact htax
  · have htax := coord_arm_taxonomy env (beginWrite s) (execSET_CIRCLE env (beginWrite s))
      (fun h => ⟨((execSET_CIRCLE_spec env (beginWrite s)).1 h).1,
        ((execSET_CIRCLE_spec env (beginWrite s)).1 h).2.1,
        ((execSET_CIRCLE_spec env (beginWrite s)).1 h).2.2.1⟩)
      (fun a b c => ⟨((execSET_CIRCLE_spec env (beginWrite s)).2.1 a b c).1,
        ((execSET_CIRCLE_spec env (beginWrite s)).2.1 a b c).2.1,
        ((execSET_CIRCLE_spec env (beginWrite s)).2.1 a b c).2.2.1⟩)
      (fun a b c d e => ⟨((execSET_CIRCLE_spec env (beginWrite s)).2.2.1 a b c d e).1,
        ((execSET_CIRCLE_spec env (beginWrite s)).2.2.1 a b c d e).2.1,
        ((execSET_CIRCLE_spec env (beginWrite s)).2.2.1 a b c d e).2.2.1⟩)
      (fun a b c d e => ⟨((execSET_CIRCLE_spec env (beginWrite s)).2.2.2 a b c d e).1.trans
          (beginWrite_status_commandStatus s),
        ((execSET_CIRCLE_spec env (beginWrite s)).2.2.2 a b c d e).2.1⟩)
    simp only [beginWrite_status_motionFlag, inRange_beginWrite, beginWrite_command,
      checkLimits_beginWrite, beginWrite_debug_queue] at htax
    exact htax
  · have htax := coord_arm_taxonomy env (beginWrite s) (execPROBE env (beginWrite s))
      (fun h => ⟨((execPROBE_spec env (beginWrite s)).1 h).1,
        ((execPROBE_spec env (beginWrite s)).1 h).2.1,
        ((execPROBE_spec env (beginWrite s)).1 h).2.2.1⟩)
      (fun a b c => ⟨((execPROBE_spec env (beginWrite s)).2.1 a b c).1,
        ((execPROBE_spec env (beginWrite s)).2.1 a b c).2.1,
        ((execPROBE_spec env (beginWrite s)).2.1 a b c).2.2.1⟩)
      (fun a b c d e => ⟨((execPROBE_spec env (beginWrite s)).2.2.1 a b c d e).1,
        ((execPROBE_spec env (beginWrite s)).2.2.1 a b c d e).2.1,
        ((execPROBE_spec env (beginWrite s)).2.2.1 a b c d e).2.2.1⟩)
      (fun a b c d e => ⟨((execPROBE_spec env (beginWrite s)).2.2.2 a b c d e).1.trans
          (beginWrite_status_commandStatus s),
        ((execPROBE_spec env (beginWrite s)).2.2.2 a b c d e).2.1⟩)
    simp only [beginWrite_status_motionFlag, inRange_beginWrite, beginWrite_command,
      checkLimits_beginWrite, beginWrite_debug_queue] at htax
    exact htax

theorem C3_error_taxonomy_witness :
    (c1state.command.head = c1state.command.tail ∧
     c1state.command.commandNum ≠ c1state.status.commandNumEcho ∧
     c1state.command.command = EmcmotCommandKind.SET_LINE) ∧
    ((emcmotCommandHandler envIdentity c1state).status.commandStatus =
        EmcmotCommandStatus.INVALID_COMMAND ↔
      ¬(c1state.status.motionFlag.coordFlag = true ∧
        c1state.status.motionFlag.enableFlag = true)) ∧
    ((emcmotCommandHandler envIdentity c1state).status.commandStatus =
        EmcmotCommandStatus.INVALID_PARAMS ↔
      (c1state.status.motionFlag.coordFlag = true ∧
       c1state.status.motionFlag.enableFlag = true ∧
       ¬(inRange envIdentity c1state c1state.command.pos = true ∧
         checkLimits c1state = true))) ∧
    ((emcmotCommandHandler envIdentity c1state).status.commandStatus =
        EmcmotCommandStatus.BAD_EXEC ↔
      (c1state.status.motionFlag.coordFlag = true ∧
       c1state.status.motionFlag.enableFlag = true ∧
       inRange envIdentity c1state c1state.command.pos = true ∧
       checkLimits c1state = true ∧ c1state.debug.queue.full = true)) ∧
    ((emcmotCommandHandler envIdentity c1state).status.commandStatus ≠
        EmcmotCommandStatus.OK →
      (emcmotCommandHandler envIdentity c1state).status.motionFlag.errorFlag = true) ∧
    (((emcmotCommandHandler envIdentity c1state).status.commandStatus =
        EmcmotCommandStatus.INVALID_PARAMS ∨
      (emcmotCommandHandler envIdentity c1state).status.commandStatus =
        EmcmotCommandStatus.BAD_EXEC) →
      (emcmotCommandHandler envIdentity c1state).debug.queue.segments = []) ∧
    ((emcmotCommandHandler envIdentity c1state).status.commandStatus =
        EmcmotCommandStatus.INVALID_COMMAND →
      (emcmotCommandHandler envIdentity c1state).debug.queue = c1state.debug.queue) :=
  ⟨⟨by decide, by decide, by decide⟩,
   C3_error_taxonomy envIdentity c1state (by decide) (by decide) (Or.inl (by decide))⟩

/-- The run refuting the abort part of C3 as stated: a SET_LINE rejected
by the mode/enable precondition (machine not in coordinated mode) leaves
the pending coordinated-queue segment in place - the INVALID_COMMAND path
does not abort the queue. -/
def c3state : MotState :=
  {baseState with
    command := {commandInit with
      command := EmcmotCommandKind.SET_LINE,
      pos := {tran := {x := 5, y := 0, z := 0}, a := 0, b := 0, c := 0}},
    debug := {debugInit with queue := {tpInit with segments := [TpSegment.line zeroPose]}}}

theorem C3_counterexample :
    (emcmotCommandHandler envIdentity c3state).status.commandStatus =
      EmcmotCommandStatus.INVALID_COMMAND ∧
    (emcmotCommandHandler envIdentity c3state).debug.queue.segments =
      [TpSegment.line zeroPose] ∧
    (emcmotCommandHandler envIdentity c3state).debug.queue.segments ≠ [] := by decide

/-- The infinity-norm used by the teleop arm and the claim: the maximum of
the translation magnitude and the a, b and c components. -/
def teleopNorm (env : KinEnv) (v : EmcPose) : ℚ :=
  max (max (max (env.pmCartMag v.tran) v.a) v.b) v.c

/-- The six-component scaling performed by the teleop arm (pmCartScalMult
on the translation, componentwise multiply on a, b, c). -/
def scaleVel (r : ℚ) (p : EmcPose) : EmcPose :=
  {tran := {x := r * p.tran.x, y := r * p.tran.y, z := r * p.tran.z},
   a := p.a * r, b := p.b * r, c := p.c * r}

lemma if_gt_eq_max (m a : ℚ) : (if a > m then a else m) = max m a := by
  rcases le_or_lt a m with h | h
  · rw [if_neg (not_lt.mpr h), max_eq_left h]
  · rw [if_pos h, max_eq_right h.le]

/-- In teleop mode while enabled, the SET_TELEOP_VECTOR arm stores the
commanded 6-vector, scaled by limitVel over its norm when the norm exceeds
limitVel, and latches rehomeAll. -/
lemma execSET_TELEOP_VECTOR_run (env : KinEnv) (s1 : MotState)
    (ht : s1.status.motionFlag.teleopFlag = true)
    (he : s1.status.motionFlag.enableFlag = true) :
    execSET_TELEOP_VECTOR env s1 =
      {s1 with
        debug := {s1.debug with teleop_data :=
          {desiredVel :=
            if teleopNorm env s1.command.pos > s1.config.limitVel then
              scaleVel (s1.config.limitVel / teleopNorm env s1.command.pos) s1.command.pos
            else s1.command.pos}},
        globals := {s1.globals with rehomeAll := true}} := by
  unfold execSET_TELEOP_VECTOR
  rw [if_neg (by simp [ht, he])]
  simp only [if_gt_eq_max, teleopNorm, scaleVel]

/-- C6 (amended): with a nonnegative configured velocity limit, every
SET_TELEOP_VECTOR accepted in teleop mode while enabled produces a desired
velocity whose norm (max of translation magnitude and a, b, c) is at most
limitVel, and when the commanded norm exceeds the limit all six components
are scaled by limitVel over the norm.  The magnitude function is the
opaque pmCartMag, assumed positively homogeneous. -/
theorem C6_teleop_vector_clamped (env : KinEnv) (s : MotState)
    (h1 : s.command.head = s.command.tail)
    (h2 : s.command.commandNum ≠ s.status.commandNumEcho)
    (hc : s.command.command = EmcmotCommandKind.SET_TELEOP_VECTOR)
    (ht : s.status.motionFlag.teleopFlag = true)
    (he : s.status.motionFlag.enableFlag = true)
    (hlim : 0 ≤ s.config.limitVel)
    (hms : ∀ (k : ℚ) (t : PmCartesian), 0 ≤ k →
      env.pmCartMag {x := k * t.x, y := k * t.y, z := k * t.z} = k * env.pmCartMag t) :
    teleopNorm env (emcmotCommandHandler env s).debug.teleop_data.desiredVel ≤
      s.config.limitVel ∧
    (s.config.limitVel < teleopNorm env s.command.pos →
      (emcmotCommandHandler env s).debug.teleop_data.desiredVel =
        scaleVel (s.config.limitVel / teleopNorm env s.command.pos) s.command.pos) := by
  rw [handler_run env s h1 h2, hc]
  simp only [dispatchCommand, publishRecords_debug_teleop_data]
  rw [execSET_TELEOP_VECTOR_run env (beginWrite s) (by simpa using ht) (by simpa using he)]
  simp only [beginWrite_command, beginWrite_config]
  by_cases hgt : teleopNorm env s.command.pos > s.config.limitVel
  case neg =>
    rw [if_neg hgt]
    exact ⟨not_lt.mp hgt, fun hlt => absurd hlt hgt⟩
  case pos =>
    rw [if_pos hgt]
    have hN : 0 < teleopNorm env s.command.pos := lt_of_le_of_lt hlim hgt
    set r := s.config.limitVel / teleopNorm env s.command.pos with hrdef
    have hr : 0 ≤ r := div_nonneg hlim hN.le
    have hmag := hms r s.command.pos.tran hr
    constructor
    · have heq : teleopNorm env (scaleVel r s.command.pos) =
          r * teleopNorm env s.command.pos := by
        unfold teleopNorm scaleVel
        rw [hmag, mul_comm s.command.pos.a r, mul_comm s.command.pos.b r,
          mul_comm s.command.pos.c r,
          mul_max_of_nonneg _ _ hr, mul_max_of_nonneg _ _ hr, mul_max_of_nonneg _ _ hr]
      rw [heq, hrdef, div_mul_cancel₀ _ (ne_of_gt hN)]
    · intro _
      rfl

lemma taxiMag_scale (k : ℚ) (t : PmCartesian) (hk : 0 ≤ k) :
    taxiMag {x := k * t.x, y := k * t.y, z := k * t.z} = k * taxiMag t := by
  unfold taxiMag
  rw [abs_mul, abs_mul, abs_mul, abs_of_nonneg hk]; ring

/-- Concrete run of C6 (amended): spec scenario 6 shape: teleop vector
(3, 4, 0) with limitVel 5/2. -/
def c6wstate : MotState :=
  {baseState with
    command := {commandInit with
      command := EmcmotCommandKind.SET_TELEOP_VECTOR,
      pos := {tran := {x := 3, y := 4, z := 0}, a := 0, b := 0, c := 0}},
    status := {statusInit with
      motionFlag := {motionFlagsInit with enableFlag := true, teleopFlag := true}},
    config := {configInit with limitVel := 5/2}}

theorem C6_teleop_vector_clamped_witness :
    (c6wstate.command.head = c6wstate.command.tail ∧
     c6wstate.command.commandNum ≠ c6wstate.status.commandNumEcho ∧
     c6wstate.command.command = EmcmotCommandKind.SET_TELEOP_VECTOR ∧
     c6wstate.status.motionFlag.teleopFlag = true ∧
     c6wstate.status.motionFlag.enableFlag = true ∧
     (0:ℚ) ≤ c6wstate.config.limitVel) ∧
    (teleopNorm envIdentity
       (emcmotCommandHandler envIdentity c6wstate).debug.teleop_data.desiredVel ≤
       c6wstate.config.limitVel ∧
     (c6wstate.config.limitVel < teleopNorm envIdentity c6wstate.command.pos →
       (emcmotCommandHandler envIdentity c6wstate).debug.teleop_data.desiredVel =
         scaleVel (c6wstate.config.limitVel / teleopNorm envIdentity c6wstate.command.pos)
           c6wstate.command.pos)) :=
  ⟨⟨by decide, by decide, by decide, by decide, by decide, by decide⟩,
   C6_teleop_vector_clamped envIdentity c6wstate (by decide) (by decide) (by decide)
     (by decide) (by decide) (by decide)
     (fun k t hk => taxiMag_scale k t hk)⟩

/-- The run refuting C6 as stated: with a negative configured limitVel
(SET_VEL_LIMIT accepts any value), the teleop vector (1, 0, 0) is scaled
by a negative ratio and the resulting norm, 1, still exceeds limitVel. -/
def c6state : MotState :=
  {baseState with
    command := {commandInit with
      command := EmcmotCommandKind.SET_TELEOP_VECTOR,
      pos := {tran := {x := 1, y := 0, z := 0}, a := 0, b := 0, c := 0}},
    status := {statusInit with
      motionFlag := {motionFlagsInit with enableFlag := true, teleopFlag := true}},
    config := {configInit with limitVel := -1}}

theorem C6_counterexample :
    (c6state.command.command = EmcmotCommandKind.SET_TELEOP_VECTOR ∧
     c6state.status.motionFlag.teleopFlag = true ∧
     c6state.status.motionFlag.enableFlag = true ∧
     c6state.config.limitVel = -1) ∧
    teleopNorm envIdentity
        (emcmotCommandHandler envIdentity c6state).debug.teleop_data.desiredVel = 1 ∧
    c6state.config.limitVel <
      teleopNorm envIdentity
        (emcmotCommandHandler envIdentity c6state).debug.teleop_data.desiredVel := by
  refine ⟨⟨by decide, by decide, by decide, by decide⟩, by decide, by decide⟩

end EmcMot
